import Mathlib

/-!
# restraint: the task state machine of `src/task.c`

A shallow embedding of `task.c`: the per-task state machine (`task_handler`,
`next_task`), the supervisor (`task_run`) with its event-loop callbacks
(`task_pid_callback`, `task_pid_finish`, `task_timeout_callback`), the
environment builder (`build_env`), the fetch dispatcher
(`restraint_task_fetch`) and the status client (`task_status`,
`restraint_task_abort`, `restraint_task_cancel`, `restraint_task_watchdog`,
`restraint_task_result`).

Conventions.

* The C code mutates `AppData` through a pointer; here every function takes
  the application state and returns the new one.
* `app_data->tasks` is a cursor into a doubly linked `GList`.  The nodes from
  the cursor on are `AppData.tasks` (its head is the active task); the nodes
  behind the cursor, still allocated and reachable through `->prev`, are
  `AppData.tasks_prev` (nearest first).
* What the operating system and the external collaborators answer during one
  callback (fork, kill, chdir, exec, the fetchers, the metadata parser, the
  clock) is an explicit parameter `Ext`.
* Messages handed to `soup_session_queue_message` are appended to
  `AppData.soup_session`; strings handed to `connections_write` are appended
  to `AppData.connections`; event sources live in `AppData.main_context`.
* Diagnostics (`g_warning`, `g_message`, `g_critical`, `g_print`) have no
  effect on the program state and are not recorded.
-/

namespace Restraint

/-! ## Data model -/

/-- Modelled from the spec: the enum `TaskSetupState` of `task.h`; the
constructors are the state names used in `task.c`. -/
inductive TaskSetupState where
  | TASK_IDLE
  | TASK_FETCH
  | TASK_FETCHING
  | TASK_METADATA
  | TASK_ENV
  | TASK_WATCHDOG
  | TASK_DEPENDENCIES
  | TASK_RUN
  | TASK_RUNNING
  | TASK_FAIL
  | TASK_CANCELLED
  | TASK_ABORTED
  | TASK_COMPLETE
  deriving DecidableEq

/-- Modelled from the spec: the recipe states of `recipe.h`.  `task.c` names
only `RECIPE_COMPLETE`; every other value of the enum is `other n`. -/
inductive RecipeSetupState where
  | RECIPE_COMPLETE
  | other (n : Nat)
  deriving DecidableEq

/-- The three error domains (quarks) that `task.c` defines, and any foreign one. -/
inductive GQuark where
  | restraint_task_runner_error
  | restraint_task_fetch_error
  | restraint_task_fetch_libarchive_error
  | foreign (name : String)
  deriving DecidableEq

/-- Modelled from the spec: the error codes of the task-runner domain
(`task.h`), and `other n` for a code of another domain. -/
inductive ErrorCode where
  | RESTRAINT_TASK_RUNNER_FORK_ERROR
  | RESTRAINT_TASK_RUNNER_CHDIR_ERROR
  | RESTRAINT_TASK_RUNNER_STDERR_ERROR
  | RESTRAINT_TASK_RUNNER_RC_ERROR
  | RESTRAINT_TASK_RUNNER_WATCHDOG_ERROR
  | other (n : Int)
  deriving DecidableEq

/-- A `GError`: domain, code, message. -/
structure GError where
  domain : GQuark
  code : ErrorCode
  message : String
  deriving DecidableEq

/-- A `SoupURI`: its scheme and everything after the scheme. -/
structure SoupURI where
  scheme : String
  rest : String
  deriving DecidableEq

/-- A name/value pair (`Param`; roles are read through the same two fields). -/
structure Param where
  name : String
  value : String
  deriving DecidableEq

/-- The tagged fetch specification (`fetch_method` with the `fetch` union);
`invalid` is a `fetch_method` outside the two enumerators. -/
inductive TaskFetch where
  | TASK_FETCH_UNPACK (url : SoupURI)
  | TASK_FETCH_INSTALL_PACKAGE (package_name : String)
  | invalid
  deriving DecidableEq

/-- Modelled from the spec: the fields of `Recipe` read by `task.c`. -/
structure Recipe where
  job_id : String
  recipe_set_id : String
  recipe_id : String
  osdistro : String
  osmajor : String
  osvariant : String
  osarch : String
  recipe_uri : SoupURI
  roles : List Param
  params : List Param
  deriving DecidableEq

/-- Modelled from the spec: the fields of `Task` (`task.h`).  `env` is `none`
while the C pointer is NULL; handles are source ids, 0 when cleared. -/
structure Task where
  task_id : String
  task_uri : SoupURI
  name : String
  path : String
  order : Int
  fetch : TaskFetch
  entry_point : List String
  max_time : Nat
  rhts_compat : Bool
  params : List Param
  roles : List Param
  dependencies : List String
  recipe : Recipe
  state : TaskSetupState
  pid : Int
  pid_result : Int
  env : Option (List String)
  pty_handler_id : Nat
  pid_handler_id : Nat
  timeout_handler_id : Nat
  heartbeat_handler_id : Nat
  expire_time : String
  error : Option GError
  deriving DecidableEq

/-- The observer stream a message is written to. -/
inductive StreamType where
  | STREAM_STDOUT
  | STREAM_STDERR
  deriving DecidableEq

/-- A request built by the status client: method, base URI with the relative
reference it was resolved against, and the form fields of its body. -/
structure SoupMessage where
  method : String
  base : SoupURI
  rel : String
  fields : List (String × String)
  deriving DecidableEq

/-- The callbacks that `task.c` attaches to the event loop. -/
inductive SourceKind where
  | idle_task_handler
  | idle_recipe_handler
  | io_watch (fd : Int)
  | child_watch (pid : Int)
  | timeout_watchdog (seconds : Nat)
  | timeout_heartbeat (seconds : Nat)
  deriving DecidableEq

/-- An attached event source. -/
structure GSource where
  id : Nat
  kind : SourceKind
  deriving DecidableEq

/-- The event loop of spec section 4.1: the attached sources and the number of
ids handed out so far. -/
structure MainContext where
  next_id : Nat
  sources : List GSource
  deriving DecidableEq

/-- The application state seen by `task.c`: the fields of `AppData` it uses,
with the process-wide HTTP session and event loop carried along. -/
structure AppData where
  tasks_prev : List Task
  tasks : List Task
  state : RecipeSetupState
  recipe_handler_id : Nat
  task_handler_id : Nat
  connections : List (StreamType × String)
  soup_session : List SoupMessage
  main_context : MainContext
  deriving DecidableEq

/-- What the environment answers during one callback. -/
structure Ext where
  /-- the value of the macro `ENV_PREFIX` -/
  ENV_PREFIX : String
  /-- return value and `tmp_error` of `restraint_task_fetch_git` -/
  fetch_git : Bool × Option GError
  /-- return value and `tmp_error` of `restraint_task_fetch_http` -/
  fetch_http : Bool × Option GError
  /-- return value and `tmp_error` of `restraint_install_package` -/
  install_package : Bool × Option GError
  /-- return value of `restraint_metadata_update` and the task as it leaves it -/
  metadata_update : Task → Bool × Task
  /-- return value of `forkpty` and the descriptor stored in `ret_fd` -/
  forkpty : Int × Int
  /-- return value of `chdir` -/
  chdir : Int
  /-- whether `execvp` fails (returns -1) rather than replacing the process -/
  execvp_fails : Bool
  /-- return value of `kill` -/
  kill : Int
  /-- the text `strftime` writes into `expire_time` -/
  strftime : String

/-- How a call ends: it returns to its caller, the process ends in `exit`,
the process image is replaced by `execvp`, or a NULL pointer is dereferenced. -/
inductive Outcome (α : Type) where
  | returned (a : α)
  | exited (code : Int)
  | execed (argv : List String) (env : Option (List String))
  | segv
  deriving DecidableEq

/-! ## Library functions -/

/-- The signal number of `SIGKILL`. -/
def SIGKILL : Int := 9

/-- Printf conversion `%i` / `%d`. -/
def fmt_i (n : Int) : String := toString n

/-- Printf conversion `%lu`. -/
def fmt_lu (n : Nat) : String := toString n

/-- GLib `g_set_error` on `&task->error`: stores the new error when none is
set; an error already set is kept (GLib warns and drops the new one). -/
def g_set_error (err : Option GError) (domain : GQuark) (code : ErrorCode)
    (message : String) : Option GError :=
  match err with
  | none => some ⟨domain, code, message⟩
  | some e => some e

/-- GLib `g_propagate_error (dest, src)` with `dest = &task->error`: a NULL
`src` is refused, an error already in `dest` is kept. -/
def g_propagate_error (dest : Option GError) (src : Option GError) : Option GError :=
  match src with
  | none => dest
  | some e =>
    match dest with
    | none => some e
    | some d => some d

/-- Attaching a source: the id is the next unused positive number. -/
def g_source_attach (ctx : MainContext) (kind : SourceKind) : Nat × MainContext :=
  (ctx.next_id + 1,
   { next_id := ctx.next_id + 1, sources := ctx.sources ++ [⟨ctx.next_id + 1, kind⟩] })

/-- GLib `g_source_remove` on a source that was registered with a NULL
destroy-notify (in `task.c`: the io watch, the two timers and the
`task_handler` idle source): the source with that id is detached and nothing
else happens; an id that is not attached leaves the loop as it is.  The child
watch is registered with `task_pid_finish` as its destroy-notify; removing it
is `g_source_remove_notify`. -/
def g_source_remove (ctx : MainContext) (id : Nat) : MainContext :=
  { ctx with sources := ctx.sources.filter (fun s => s.id != id) }

/-- Whether a source is a child watch, the one kind of source that `task.c`
registers with a destroy-notify (`task_pid_finish`, in `task_run`). -/
def is_child_watch : SourceKind → Bool
  | SourceKind.child_watch _ => true
  | _ => false

/-- Whether the source attached under `id` is a child watch (ids are unique in
a loop, so at most one source is looked at). -/
def child_watch_attached (ctx : MainContext) (id : Nat) : Bool :=
  ctx.sources.any (fun s => s.id == id && is_child_watch s.kind)

/-- libsoup `soup_message_new_from_uri` applied to
`soup_uri_new_with_base (base, rel)`: it always yields a message object. -/
def soup_message_new_from_uri (method : String) (base : SoupURI) (rel : String) :
    Option SoupMessage :=
  some { method := method, base := base, rel := rel, fields := [] }

/-- Puts a message with its form body on the session queue
(`soup_message_set_request` then `soup_session_queue_message`). -/
def soup_session_queue_message (app : AppData) (msg : SoupMessage)
    (data : List (String × String)) : AppData :=
  { app with soup_session := app.soup_session ++ [{ msg with fields := data }] }

/-- Appends a message to the observer stream (`connections_write`). -/
def connections_write (app : AppData) (message : String) (stream : StreamType) : AppData :=
  { app with connections := app.connections ++ [(stream, message)] }

/-- Replaces the active task (the node under the cursor). -/
def set_task (app : AppData) (task : Task) : AppData :=
  { app with tasks := task :: app.tasks.tail }

/-- The assignment `task->state = s` through the pointer to the active task. -/
def set_state (app : AppData) (s : TaskSetupState) : AppData :=
  match app.tasks with
  | [] => app
  | task :: rest => { app with tasks := { task with state := s } :: rest }

/-! ## Fetch dispatcher -/

/-- Source: `restraint_task_fetch (app_data, &task->error)`.  `none` is the
dereference of an empty task list. -/
def restraint_task_fetch (ext : Ext) (app : AppData) : Option (AppData × Bool) :=
  match app.tasks with
  | [] => none
  | task :: _ =>
    -- g_return_val_if_fail(error == NULL || *error == NULL, FALSE)
    if task.error.isSome then some (app, false)
    else
      match task.fetch with
      | TaskFetch.TASK_FETCH_UNPACK url =>
        if url.scheme = "git" then
          if !ext.fetch_git.1 then
            some (set_task app { task with error := g_propagate_error task.error ext.fetch_git.2 },
                  false)
          else some (app, true)
        else if url.scheme = "http" then
          if !ext.fetch_http.1 then
            some (set_task app { task with error := g_propagate_error task.error ext.fetch_http.2 },
                  false)
          else some (app, true)
        else
          -- g_critical("XXX IMPLEMENTME")
          some (app, false)
      | TaskFetch.TASK_FETCH_INSTALL_PACKAGE _ =>
        if !ext.install_package.1 then
          some (set_task app
                  { task with error := g_propagate_error task.error ext.install_package.2 },
                false)
        else some (app, true)
      | TaskFetch.invalid => some (app, false)

/-! ## Environment builder -/

/-- Source: `build_param_var`. -/
def build_param_var (param : Param) (env : List String) : List String :=
  env ++ [param.name ++ "=" ++ param.value]

/-- Source: `g_list_foreach (list, build_param_var, env)`. -/
def build_param_vars (params : List Param) (env : List String) : List String :=
  params.foldl (fun acc p => build_param_var p acc) env

/-- Source: `build_env`.  The vector is returned without its terminating NULL. -/
def build_env ( ENV_PREFIX : String) (task : Task) : Task × Bool :=
  let pfx := if task.rhts_compat = false then ENV_PREFIX else ""
  let env : List String := []
  let env := build_param_vars task.recipe.roles env
  let env := build_param_vars task.roles env
  let env := env ++ [pfx ++ "JOBID=" ++ task.recipe.job_id]
  let env := env ++ [pfx ++ "RECIPESETID=" ++ task.recipe.recipe_set_id]
  let env := env ++ [pfx ++ "RECIPEID=" ++ task.recipe.recipe_id]
  let env := env ++ [pfx ++ "TASKID=" ++ task.task_id]
  let env := env ++ [pfx ++ "OSDISTRO=" ++ task.recipe.osdistro]
  let env := env ++ [pfx ++ "OSMAJOR=" ++ task.recipe.osmajor]
  let env := env ++ [pfx ++ "OSVARIANT=" ++ task.recipe.osvariant]
  let env := env ++ [pfx ++ "OSARCH=" ++ task.recipe.osarch]
  let env := env ++ [pfx ++ "TASKPATH=" ++ task.path]
  let env := env ++ [pfx ++ "TASKNAME=" ++ task.name]
  let env := env ++ [pfx ++ "MAXTIME=" ++ fmt_lu task.max_time]
  let env := env ++ [pfx ++ "LAB_CONTROLLER="]
  let env := env ++ [pfx ++ "TASKORDER=" ++ fmt_i task.order]
  let env := env ++ ["HOME=/root"]
  let env := env ++ ["TERM=vt100"]
  let env := env ++ ["LANG=en_US.UTF-8"]
  let env := env ++ ["PATH=/usr/local/bin:usr/bin:/bin:/usr/local/sbin:/usr/sbin"]
  let env := build_param_vars task.recipe.params env
  let env := build_param_vars task.params env
  ({ task with env := some env }, true)

/-! ## Supervisor callbacks -/

/-- Source: `task_pid_callback`, the child-watch callback. -/
def task_pid_callback (_pid : Int) (status : Int) (app : AppData) : Option AppData :=
  match app.tasks with
  | [] => none
  | task0 :: _ =>
    let task := { task0 with pid_result := status }
    if task.pid_result ≠ 0 then
      if task.state = TaskSetupState.TASK_ABORTED then
        some (set_task app { task with error :=
          (g_set_error task.error GQuark.restraint_task_runner_error
            ErrorCode.RESTRAINT_TASK_RUNNER_WATCHDOG_ERROR
            ("Local watchdog expired! Killed " ++ fmt_i task.pid ++ " with " ++ fmt_i SIGKILL)) })
      else if task.state = TaskSetupState.TASK_CANCELLED then
        some (set_task app { task with error :=
          (g_set_error task.error GQuark.restraint_task_runner_error
            ErrorCode.RESTRAINT_TASK_RUNNER_WATCHDOG_ERROR
            ("Cancelled by user! Killed " ++ fmt_i task.pid ++ " with " ++ fmt_i SIGKILL)) })
      else
        some (set_task app { task with error :=
          (g_set_error task.error GQuark.restraint_task_runner_error
            ErrorCode.RESTRAINT_TASK_RUNNER_RC_ERROR
            (task.entry_point.headD "(null)" ++ " returned non-zero " ++ fmt_i task.pid_result)) })
    else some (set_task app task)

/-- Source: `task_pid_finish`, the finalize hook of the child watch. -/
def task_pid_finish (app : AppData) : Option AppData :=
  match app.tasks with
  | [] => none
  | task0 :: _ =>
    let ctx := app.main_context
    -- Remove heartbeat handler
    let ctx := if task0.heartbeat_handler_id ≠ 0
      then g_source_remove ctx task0.heartbeat_handler_id else ctx
    let task := { task0 with heartbeat_handler_id := 0 }
    -- Remove local watchdog handler
    let ctx := if task.timeout_handler_id ≠ 0
      then g_source_remove ctx task.timeout_handler_id else ctx
    let task := { task with timeout_handler_id := 0 }
    let task :=
      if task.state ≠ TaskSetupState.TASK_CANCELLED then
        if task.error.isSome then { task with state := TaskSetupState.TASK_FAIL }
        else { task with state := TaskSetupState.TASK_COMPLETE }
      else task
    -- Add the task_handler back to finish.
    let r := g_source_attach ctx SourceKind.idle_task_handler
    some { (set_task app task) with task_handler_id := r.1, main_context := r.2 }

/-- GLib `g_source_remove` on a source that may carry a destroy-notify: the
source with that id is detached and, when it is a child watch, its
destroy-notify `task_pid_finish` runs on the spot, before `g_source_remove`
returns to its caller.  An id that is not attached leaves everything as it
is. -/
def g_source_remove_notify (app : AppData) (id : Nat) : Option AppData :=
  if child_watch_attached app.main_context id then
    task_pid_finish { app with main_context := g_source_remove app.main_context id }
  else some { app with main_context := g_source_remove app.main_context id }

/-- The assignment `task->pid_handler_id = id` through the pointer to the
active task. -/
def set_pid_handler_id (app : AppData) (id : Nat) : AppData :=
  match app.tasks with
  | [] => app
  | task :: rest => { app with tasks := { task with pid_handler_id := id } :: rest }

/-- Source: `task_timeout_callback`, the local watchdog.  The handle in
`pid_handler_id` is the child watch's, whose removal runs `task_pid_finish`;
the handle in `heartbeat_handler_id` is a timer's, registered with a NULL
destroy-notify. -/
def task_timeout_callback (ext : Ext) (app : AppData) : Option (AppData × Bool) :=
  match app.tasks with
  | [] => none
  | task0 :: _ =>
    -- Kill process pid
    let killed : Option AppData :=
      if ext.kill = 0 then
        some (set_task app { task0 with state := TaskSetupState.TASK_ABORTED })
      else
        let task := { task0 with error :=
          (g_set_error task0.error GQuark.restraint_task_runner_error
            ErrorCode.RESTRAINT_TASK_RUNNER_WATCHDOG_ERROR
            ("Local watchdog expired! But we failed to kill " ++ fmt_i task0.pid ++ " with "
              ++ fmt_i SIGKILL)) }
        -- Remove pid handler
        if task.pid_handler_id ≠ 0 then
          (g_source_remove_notify (set_task app task) task.pid_handler_id).map
            (fun a => set_pid_handler_id a 0)
        else some (set_task app task)
    killed.bind (fun a =>
      match a.tasks with
      | [] => none
      | task :: _ =>
        -- Remove heartbeat handler
        let ctx := if task.heartbeat_handler_id ≠ 0
          then g_source_remove a.main_context task.heartbeat_handler_id else a.main_context
        some ({ (set_task a { task with heartbeat_handler_id := 0 }) with main_context := ctx },
          false))

/-- Source: `task_run (app_data, &task->error)`, the supervisor. -/
def task_run (ext : Ext) (app : AppData) : Outcome (AppData × Bool) :=
  match app.tasks with
  | [] => Outcome.segv
  | task0 :: _ =>
    let task : Task := { task0 with pid := ext.forkpty.1 }
    if task.pid < (0 : Int) then
      -- Failed to fork
      Outcome.returned
        (set_task app { task with error :=
          (g_set_error task.error GQuark.restraint_task_runner_error
            ErrorCode.RESTRAINT_TASK_RUNNER_FORK_ERROR "Failed to fork!") }, false)
    else if task.pid = (0 : Int) then
      -- Child process.
      if ext.chdir = -1 then
        Outcome.returned
          (set_task app { task with error :=
            (g_set_error task.error GQuark.restraint_task_runner_error
              ErrorCode.RESTRAINT_TASK_RUNNER_CHDIR_ERROR
              ("Failed to chdir() to " ++ task.path)) }, false)
      else if ext.execvp_fails then Outcome.exited 1
      else Outcome.execed task.entry_point task.env
    else
      -- Parent process.
      let r1 := g_source_attach app.main_context (SourceKind.io_watch ext.forkpty.2)
      let r2 := g_source_attach r1.2 (SourceKind.child_watch task.pid)
      let r3 := g_source_attach r2.2 (SourceKind.timeout_watchdog (task.max_time % 2 ^ 32))
      let r4 := g_source_attach r3.2 (SourceKind.timeout_heartbeat 300)
      Outcome.returned
        ({ (set_task app
            { task with
              pty_handler_id := r1.1
              pid_handler_id := r2.1
              expire_time := ext.strftime
              timeout_handler_id := r3.1
              heartbeat_handler_id := r4.1 })
           with main_context := r4.2 }, true)

/-! ## Status client -/

/-- Source: `task_status`; a NULL task is `none`. -/
def task_status (app : AppData) (task : Option Task) (status : String)
    (reason : Option GError) : AppData :=
  match task with
  | none => app
  | some task =>
    match soup_message_new_from_uri "POST" task.task_uri "status" with
    | none => app
    | some server_msg =>
      match reason with
      | none => soup_session_queue_message app server_msg [("status", status)]
      | some r =>
        soup_session_queue_message app server_msg [("status", status), ("message", r.message)]

/-- Source: `restraint_task_abort`. -/
def restraint_task_abort (app : AppData) (task : Option Task) (reason : Option GError) :
    AppData :=
  task_status app task "Aborted" reason

/-- Source: `restraint_task_cancel`. -/
def restraint_task_cancel (app : AppData) (task : Option Task) (reason : Option GError) :
    AppData :=
  task_status app task "Cancelled" reason

/-- Source: `restraint_task_watchdog`; a NULL task is `none`.  The code hands
the integer `seconds` itself to `soup_form_encode` where a string pointer is
expected; `string_at n` is the text found at address `n`. -/
def restraint_task_watchdog (string_at : Nat → String) (app : AppData) (task : Option Task)
    (seconds : Nat) : AppData :=
  match task with
  | none => app
  | some task =>
    -- g_return_if_fail(seconds != 0)
    if seconds = 0 then app
    else
      match soup_message_new_from_uri "POST" task.recipe.recipe_uri "watchdog" with
      | none => app
      | some server_msg =>
        soup_session_queue_message app server_msg [("seconds", string_at seconds)]

/-- Source: `restraint_task_result`; a NULL task, result, path or message is
`none`.  The hash table is kept as the list of its entries in insertion order
(the four keys are distinct, so no insertion replaces another; the order in
which `soup_form_encode_hash` walks the table is not fixed by the code).  The
value stored under `score` is the address of the integer; `bytes_of n` is the
text its bytes spell. -/
def restraint_task_result (bytes_of : Nat → String) (app : AppData) (task : Option Task)
    (result : Option String) (score : Nat) (path : Option String) (message : Option String) :
    AppData :=
  match task with
  | none => app
  | some task =>
    match result with
    | none => app
    | some result =>
      match soup_message_new_from_uri "POST" task.task_uri "results" with
      | none => app
      | some server_msg =>
        let data_table : List (String × String) := [("result", result)]
        let data_table :=
          if score ≠ 0 then data_table ++ [("score", bytes_of score)] else data_table
        let data_table :=
          match path with
          | some p => data_table ++ [("path", p)]
          | none => data_table
        let data_table :=
          match message with
          | some m => data_table ++ [("message", m)]
          | none => data_table
        soup_session_queue_message app server_msg data_table

/-! ## Task state machine -/

/-- Source: `next_task`. -/
def next_task (app : AppData) (task_state : TaskSetupState) : Option (AppData × Bool) :=
  match app.tasks with
  | [] => none
  | task :: rest =>
    match rest with
    | next :: rest1 =>
      -- Yes, there is a task.
      some ({ app with
                tasks_prev := task :: app.tasks_prev
                tasks := { next with state := task_state } :: rest1 }, true)
    | [] =>
      -- No more tasks, let the recipe_handler know we are done.
      let r := g_source_attach app.main_context SourceKind.idle_recipe_handler
      some ({ app with
                tasks_prev := task :: app.tasks_prev
                tasks := []
                state := RecipeSetupState.RECIPE_COMPLETE
                recipe_handler_id := r.1
                main_context := r.2 }, false)

/-- The tail of `task_handler`: a non-empty message goes to the observers on
the STDERR stream, then `result` is returned. -/
def task_handler_end (app : AppData) (message : String) (result : Bool) :
    Outcome (AppData × Bool) :=
  if message.length ≠ 0 then
    Outcome.returned (connections_write app message StreamType.STREAM_STDERR, result)
  else Outcome.returned (app, result)

/-- Source: `task_handler`, the idle callback that drives the active task.  The
boolean is the callback's return value: `true` keeps it queued. -/
def task_handler (ext : Ext) (app : AppData) : Outcome (AppData × Bool) :=
  match app.tasks with
  | [] => Outcome.segv
  | task :: _ =>
    match task.state with
    | TaskSetupState.TASK_IDLE =>
      task_handler_end (set_state app TaskSetupState.TASK_FETCH)
        ("** Fetching task: " ++ task.task_id ++ " [" ++ task.path ++ "]\n") true
    | TaskSetupState.TASK_FETCH =>
      match restraint_task_fetch ext app with
      | none => Outcome.segv
      | some (app1, ok) =>
        task_handler_end
          (set_state app1
            (if ok then TaskSetupState.TASK_FETCHING else TaskSetupState.TASK_FAIL)) "" true
    | TaskSetupState.TASK_METADATA =>
      let r := ext.metadata_update task
      task_handler_end
        (set_state (set_task app r.2)
          (if r.1 then TaskSetupState.TASK_ENV else TaskSetupState.TASK_FAIL))
        "** Updating metadata\n" true
    | TaskSetupState.TASK_ENV =>
      let r := build_env ext.ENV_PREFIX task
      task_handler_end
        (set_state (set_task app r.1)
          (if r.2 then TaskSetupState.TASK_WATCHDOG else TaskSetupState.TASK_FAIL))
        "** Updating env vars\n" true
    | TaskSetupState.TASK_WATCHDOG =>
      task_handler_end (set_state app TaskSetupState.TASK_DEPENDENCIES)
        "** Updating watchdog\n" true
    | TaskSetupState.TASK_DEPENDENCIES =>
      task_handler_end (set_state app TaskSetupState.TASK_RUN)
        "** Installing dependencies\n" true
    | TaskSetupState.TASK_RUN =>
      match task_run ext app with
      | Outcome.returned (app1, ok) =>
        task_handler_end
          (set_state app1
            (if ok then TaskSetupState.TASK_RUNNING else TaskSetupState.TASK_FAIL))
          ("** Running task: " ++ task.task_id ++ " [" ++ task.name ++ "]\n") true
      | Outcome.exited code => Outcome.exited code
      | Outcome.execed argv env => Outcome.execed argv env
      | Outcome.segv => Outcome.segv
    | TaskSetupState.TASK_RUNNING =>
      -- TASK is running.  Remove this idle handler
      Outcome.returned (app, false)
    | TaskSetupState.TASK_FAIL =>
      -- Some step along the way failed.
      match task.error with
      | some e =>
        task_handler_end
          (set_state (restraint_task_abort app (some task) task.error)
            TaskSetupState.TASK_COMPLETE)
          ("** ERROR: " ++ e.message ++ "\n") true
      | none => task_handler_end (set_state app TaskSetupState.TASK_COMPLETE) "" true
    | TaskSetupState.TASK_CANCELLED =>
      match next_task (restraint_task_cancel app (some task) none)
          TaskSetupState.TASK_CANCELLED with
      | none => Outcome.segv
      | some (app1, result) =>
        task_handler_end app1 ("** Cancelling Task : " ++ task.task_id ++ "\n") result
    | TaskSetupState.TASK_COMPLETE =>
      -- Task completed so iterate to the next task
      match next_task app TaskSetupState.TASK_IDLE with
      | none => Outcome.segv
      | some (app1, result) =>
        task_handler_end app1 ("** Completed Task : " ++ task.task_id ++ "\n") result
    | TaskSetupState.TASK_FETCHING => Outcome.returned (app, true)
    | TaskSetupState.TASK_ABORTED => Outcome.returned (app, true)

/-- The return value of a call that came back, `false` for one that did not. -/
def Outcome.succeeded {α : Type} : Outcome (α × Bool) → Bool
  | Outcome.returned (_, ok) => ok
  | _ => false

/-- What a call returned, `none` for one that did not come back. -/
def Outcome.result? {α : Type} : Outcome α → Option α
  | Outcome.returned a => some a
  | _ => none

/-- The error field of the active task after `task_pid_callback` has received
`status`: for a nonzero status one error, chosen by the task's state, is
offered to `g_set_error`. -/
def exit_error (t : Task) (status : Int) : Option GError :=
  if status ≠ 0 then
    if t.state = TaskSetupState.TASK_ABORTED then
      g_set_error t.error GQuark.restraint_task_runner_error
        ErrorCode.RESTRAINT_TASK_RUNNER_WATCHDOG_ERROR
        ("Local watchdog expired! Killed " ++ fmt_i t.pid ++ " with " ++ fmt_i SIGKILL)
    else if t.state = TaskSetupState.TASK_CANCELLED then
      g_set_error t.error GQuark.restraint_task_runner_error
        ErrorCode.RESTRAINT_TASK_RUNNER_WATCHDOG_ERROR
        ("Cancelled by user! Killed " ++ fmt_i t.pid ++ " with " ++ fmt_i SIGKILL)
    else
      g_set_error t.error GQuark.restraint_task_runner_error
        ErrorCode.RESTRAINT_TASK_RUNNER_RC_ERROR
        (t.entry_point.headD "(null)" ++ " returned non-zero " ++ fmt_i status)
  else t.error

/-- Dispatch of the child watch (spec section 4.1): the callback receives the
wait status, then the finalize hook runs. -/
def child_watch_dispatch (pid : Int) (status : Int) (app : AppData) : Option AppData :=
  (task_pid_callback pid status app).bind task_pid_finish

/-- A recipe for the worked examples. -/
def sample_recipe : Recipe :=
  { job_id := "J1", recipe_set_id := "RS1", recipe_id := "R1", osdistro := "Fedora",
    osmajor := "F19", osvariant := "", osarch := "x86_64",
    recipe_uri := ⟨"http", "//lab/recipes/1/"⟩, roles := [], params := [] }

/-- A task for the worked examples, in state `s`. -/
def sample_task (s : TaskSetupState) : Task :=
  { task_id := "42", task_uri := ⟨"http", "//lab/recipes/1/tasks/42/"⟩, name := "/distribution/t",
    path := "/mnt/tests/t", order := 1, fetch := TaskFetch.TASK_FETCH_UNPACK ⟨"git", "//lab/t"⟩,
    entry_point := ["make", "run"], max_time := 30, rhts_compat := true, params := [],
    roles := [], dependencies := [], recipe := sample_recipe, state := s, pid := 0,
    pid_result := 0, env := none, pty_handler_id := 0, pid_handler_id := 0,
    timeout_handler_id := 0, heartbeat_handler_id := 0, expire_time := "", error := none }

/-- The error that `task_run` records when the fork fails. -/
def fork_error : GError :=
  ⟨GQuark.restraint_task_runner_error, ErrorCode.RESTRAINT_TASK_RUNNER_FORK_ERROR,
    "Failed to fork!"⟩

/-- A task in FAIL that carries the fork error. -/
def sample_failed_task : Task := { sample_task TaskSetupState.TASK_FAIL with error := some fork_error }

/-- An application state whose cursor is on the first of `tasks`. -/
def sample_app (tasks : List Task) : AppData :=
  { tasks_prev := [], tasks := tasks, state := RecipeSetupState.other 0,
    recipe_handler_id := 0, task_handler_id := 1, connections := [], soup_session := [],
    main_context := { next_id := 1, sources := [⟨1, SourceKind.idle_task_handler⟩] } }

/-- An environment in which every collaborator succeeds, the fork yields child
1234 on descriptor 5 and `kill` succeeds. -/
def sample_ext : Ext :=
  { ENV_PREFIX := "RSTRNT_", fetch_git := (true, none), fetch_http := (true, none),
    install_package := (true, none), metadata_update := fun t => (true, t),
    forkpty := (1234, 5), chdir := 0, execvp_fails := false, kill := 0,
    strftime := "Thu Jan 01 00:00:30 1970" }

/-- The sample task as `task_run` leaves it under `sample_ext`: child 1234,
the four sources with ids 2 to 5; `s` is its state. -/
def sample_running_task (s : TaskSetupState) : Task :=
  { sample_task s with
    pid := 1234, pty_handler_id := 2, pid_handler_id := 3, timeout_handler_id := 4,
    heartbeat_handler_id := 5, expire_time := "Thu Jan 01 00:00:30 1970" }

/-- The state that `task_handler` reaches from
`sample_app (sample_task TASK_RUN :: rest)` under `sample_ext`. -/
def sample_running_app (rest : List Task) : AppData :=
  { tasks_prev := []
    tasks := sample_running_task TaskSetupState.TASK_RUNNING :: rest
    state := RecipeSetupState.other 0
    recipe_handler_id := 0
    task_handler_id := 1
    connections := [(StreamType.STREAM_STDERR, "** Running task: 42 [/distribution/t]\n")]
    soup_session := []
    main_context :=
      { next_id := 5,
        sources := [⟨1, SourceKind.idle_task_handler⟩, ⟨2, SourceKind.io_watch 5⟩,
          ⟨3, SourceKind.child_watch 1234⟩, ⟨4, SourceKind.timeout_watchdog 30⟩,
          ⟨5, SourceKind.timeout_heartbeat 300⟩] } }

/-- The sample running task after an external caller has set its state to
CANCELLED, the local watchdog has fired with a successful kill, and the child
watch has delivered wait status 9 and run its finalize hook. -/
def sample_cancelled_then_expired : Option AppData :=
  (task_timeout_callback sample_ext
      (set_state (sample_running_app []) TaskSetupState.TASK_CANCELLED)).bind
    (fun r => child_watch_dispatch 1234 9 r.1)

/-- The sample running task after the local watchdog has fired with a
successful kill and the child watch has delivered wait status 0 and run its
finalize hook. -/
def sample_expired_exit_zero : Option AppData :=
  (task_timeout_callback sample_ext (sample_running_app [])).bind
    (fun r => child_watch_dispatch 1234 0 r.1)

/-- The environment of `sample_ext` with a failing fork. -/
def sample_ext_nofork : Ext := { sample_ext with forkpty := (-1, -1) }

/-! ## Reading the environment vector -/

/-- The string that `build_param_var` adds for a parameter or role. -/
def param_var (p : Param) : String := p.name ++ "=" ++ p.value

/-- The vector that `build_env` stores in `task.env` (empty if it stored none). -/
def built_env (env_pfx : String) (task : Task) : List String :=
  ((build_env env_pfx task).1.env).getD []

/-- The 13 well-known variables in the order the spec lists them, each name
preceded by `pfx`. -/
def spec_well_known (pfx : String) (task : Task) : List String :=
  [ pfx ++ "JOBID=" ++ task.recipe.job_id,
    pfx ++ "RECIPESETID=" ++ task.recipe.recipe_set_id,
    pfx ++ "RECIPEID=" ++ task.recipe.recipe_id,
    pfx ++ "TASKID=" ++ task.task_id,
    pfx ++ "OSDISTRO=" ++ task.recipe.osdistro,
    pfx ++ "OSMAJOR=" ++ task.recipe.osmajor,
    pfx ++ "OSVARIANT=" ++ task.recipe.osvariant,
    pfx ++ "OSARCH=" ++ task.recipe.osarch,
    pfx ++ "TASKPATH=" ++ task.path,
    pfx ++ "TASKNAME=" ++ task.name,
    pfx ++ "MAXTIME=" ++ fmt_lu task.max_time,
    pfx ++ "LAB_CONTROLLER=",
    pfx ++ "TASKORDER=" ++ fmt_i task.order ]

/-- The four fixed variables of the spec. -/
def spec_fixed : List String :=
  [ "HOME=/root", "TERM=vt100", "LANG=en_US.UTF-8",
    "PATH=/usr/local/bin:usr/bin:/bin:/usr/local/sbin:/usr/sbin" ]

/-- Everything the spec puts before the task parameters: recipe roles, task
roles, the well-known variables (prefix empty when `rhts_compat` is true, the
configured prefix otherwise), the fixed variables, the recipe parameters. -/
def spec_env_before_task_params (env_pfx : String) (task : Task) : List String :=
  task.recipe.roles.map param_var ++ task.roles.map param_var
    ++ spec_well_known (if task.rhts_compat then "" else env_pfx) task
    ++ spec_fixed ++ task.recipe.params.map param_var

/-- The environment vector as the spec describes it (section 4.2). -/
def spec_env (env_pfx : String) (task : Task) : List String :=
  spec_env_before_task_params env_pfx task ++ task.params.map param_var

/-- The environment of the forked child (`forkpty` answers 0) in which `chdir`
fails. -/
def sample_ext_child_nochdir : Ext := { sample_ext with forkpty := (0, -1), chdir := -1 }

/-- The environment of the forked child in which `chdir` succeeds and `execvp`
fails. -/
def sample_ext_child_noexec : Ext :=
  { sample_ext with forkpty := (0, -1), chdir := 0, execvp_fails := true }

/-- The environment of `sample_ext` in which `kill` fails. -/
def sample_ext_nokill : Ext := { sample_ext with kill := -1 }

/-! ## Successive invocations -/

/-- Successive invocations of `task_handler`, one for each element of `exts`
(what the environment answers during that invocation); the return values are
collected in order. -/
def task_handler_steps : List Ext → AppData → Outcome (AppData × List Bool)
  | [], app => Outcome.returned (app, [])
  | ext :: exts, app =>
    match task_handler ext app with
    | Outcome.returned (app1, r) =>
      match task_handler_steps exts app1 with
      | Outcome.returned (app2, rs) => Outcome.returned (app2, r :: rs)
      | Outcome.exited code => Outcome.exited code
      | Outcome.execed argv env => Outcome.execed argv env
      | Outcome.segv => Outcome.segv
    | Outcome.exited code => Outcome.exited code
    | Outcome.execed argv env => Outcome.execed argv env
    | Outcome.segv => Outcome.segv

/-- The request that a "Cancelled" status report with a NULL reason puts on
the queue for task `u`: the field `status` alone. -/
def cancelled_report (u : Task) : SoupMessage :=
  { method := "POST", base := u.task_uri, rel := "status", fields := [("status", "Cancelled")] }

/-- The sample task, in FETCH, with an Unpack URL of scheme `ftp`. -/
def sample_task_ftp : Task :=
  { sample_task TaskSetupState.TASK_FETCH with
    fetch := TaskFetch.TASK_FETCH_UNPACK ⟨"ftp", "//lab/t.tgz"⟩ }

/-- An environment in which every fetcher fails with an error of its own. -/
def sample_ext_nofetch : Ext :=
  { sample_ext with
    fetch_git := (false, some ⟨GQuark.restraint_task_fetch_error, ErrorCode.other 1, "git"⟩)
    fetch_http := (false, some ⟨GQuark.restraint_task_fetch_error, ErrorCode.other 2, "http"⟩)
    install_package :=
      (false, some ⟨GQuark.foreign "package", ErrorCode.other 3, "package"⟩) }

/-! ## Auxiliary lemmas -/

open TaskSetupState

/-- The tail of `task_handler` always returns the given result and touches
nothing but the observer stream. -/
theorem task_handler_end_eq (app : AppData) (m : String) (r : Bool) :
    task_handler_end app m r
      = Outcome.returned
          ({ app with connections :=
              if m.length ≠ 0 then app.connections ++ [(StreamType.STREAM_STDERR, m)]
              else app.connections }, r) := by
  unfold task_handler_end
  by_cases hm : m.length ≠ 0
  · simp [hm, connections_write]
  · simp [hm]

/-- Replacing the active task on a state whose active task is known. -/
theorem set_task_cons (app : AppData) (t u : Task) (ts : List Task)
    (h : app.tasks = t :: ts) :
    set_task app u = { app with tasks := u :: ts } := by
  simp [set_task, h]

/-- The fetch dispatcher returns, keeps the cursor and changes nothing but
the active task. -/
theorem restraint_task_fetch_shape (ext : Ext) (app : AppData) (t : Task) (ts : List Task)
    (h : app.tasks = t :: ts) :
    ∃ t1 ok, restraint_task_fetch ext app = some ({ app with tasks := t1 :: ts }, ok) := by
  have happ : app = { app with tasks := t :: ts } := by rw [← h]
  unfold restraint_task_fetch
  simp only [h]
  by_cases he : t.error.isSome = true
  · exact ⟨t, false, by rw [if_pos he, ← happ]⟩
  · rw [if_neg he]
    cases hf : t.fetch with
    | TASK_FETCH_UNPACK url =>
      by_cases hg : url.scheme = "git"
      · cases hb : ext.fetch_git.1
        · simp only [hg, hb, set_task_cons app t _ ts h, if_true, Bool.not_false]
          exact ⟨_, _, rfl⟩
        · exact ⟨t, true, by simp [hg, hb, ← happ]⟩
      · by_cases hh : url.scheme = "http"
        · cases hb : ext.fetch_http.1
          · simp only [hg, hh, hb, set_task_cons app t _ ts h, if_true, if_false, Bool.not_false]
            exact ⟨_, _, rfl⟩
          · exact ⟨t, true, by simp [hg, hh, hb, ← happ]⟩
        · exact ⟨t, false, by simp [hg, hh, ← happ]⟩
    | TASK_FETCH_INSTALL_PACKAGE name =>
      cases hb : ext.install_package.1
      · simp only [hb, set_task_cons app t _ ts h, if_true, Bool.not_false]
        exact ⟨_, _, rfl⟩
      · exact ⟨t, true, by simp [hb, ← happ]⟩
    | invalid => exact ⟨t, false, by simp [← happ]⟩

/-- The supervisor, when it returns, keeps the cursor. -/
theorem task_run_shape (ext : Ext) (app : AppData) (t : Task) (ts : List Task)
    (h : app.tasks = t :: ts) (hp : ext.forkpty.1 = 0 → ext.chdir = -1) :
    ∃ t1 ctx ok, task_run ext app
      = Outcome.returned ({ app with tasks := t1 :: ts, main_context := ctx }, ok) := by
  unfold task_run
  simp only [h]
  by_cases h1 : ext.forkpty.1 < 0
  · simp only [h1, set_task_cons app t _ ts h, if_true]
    exact ⟨_, app.main_context, _, rfl⟩
  · by_cases h2 : ext.forkpty.1 = 0
    · simp only [h1, h2, hp h2, set_task_cons app t _ ts h, if_true, if_false]
      exact ⟨_, app.main_context, _, rfl⟩
    · simp only [h1, h2, set_task_cons app t _ ts h, if_false]
      exact ⟨_, _, _, rfl⟩

/-- One invocation on a head task in one of the six set-up states: it returns
"continue", keeps the cursor and writes the next state. -/
theorem task_handler_setup_shape (ext : Ext) (app : AppData) (t : Task) (ts : List Task)
    (h : app.tasks = t :: ts)
    (hs : t.state = TASK_IDLE ∨ t.state = TASK_FETCH ∨ t.state = TASK_METADATA
      ∨ t.state = TASK_ENV ∨ t.state = TASK_DEPENDENCIES ∨ t.state = TASK_RUN)
    (hp : t.state = TASK_RUN → ext.forkpty.1 = 0 → ext.chdir = -1) :
    ∃ app1 t1, task_handler ext app = Outcome.returned (app1, true)
      ∧ app1.tasks = t1 :: ts ∧ app1.tasks_prev = app.tasks_prev
      ∧ t1.state =
          (match t.state with
           | TASK_IDLE => TASK_FETCH
           | TASK_FETCH =>
             if (restraint_task_fetch ext app).map Prod.snd = some true then TASK_FETCHING
             else TASK_FAIL
           | TASK_METADATA => if (ext.metadata_update t).1 then TASK_ENV else TASK_FAIL
           | TASK_ENV => TASK_WATCHDOG
           | TASK_DEPENDENCIES => TASK_RUN
           | TASK_RUN => if (task_run ext app).succeeded then TASK_RUNNING else TASK_FAIL
           | s => s) := by
  rcases hs with hs | hs | hs | hs | hs | hs
  · have h1 : ∃ c, task_handler ext app = Outcome.returned
        ({ app with tasks := { t with state := TASK_FETCH } :: ts, connections := c }, true) := by
      unfold task_handler
      simp only [h, hs, task_handler_end_eq, set_state]
      exact ⟨_, rfl⟩
    obtain ⟨c, h1⟩ := h1
    exact ⟨_, _, h1, rfl, rfl, by simp [hs]⟩
  · obtain ⟨t1, ok, hf⟩ := restraint_task_fetch_shape ext app t ts h
    have h1 : ∃ c, task_handler ext app = Outcome.returned
        ({ app with
            tasks := { t1 with state := if ok then TASK_FETCHING else TASK_FAIL } :: ts,
            connections := c }, true) := by
      unfold task_handler
      simp only [h, hs, hf, task_handler_end_eq, set_state]
      exact ⟨_, rfl⟩
    obtain ⟨c, h1⟩ := h1
    refine ⟨_, _, h1, rfl, rfl, ?_⟩
    cases ok <;> simp [hs, hf]
  · have h1 : ∃ c, task_handler ext app = Outcome.returned
        ({ app with
            tasks := { (ext.metadata_update t).2 with
              state := if (ext.metadata_update t).1 then TASK_ENV else TASK_FAIL } :: ts,
            connections := c }, true) := by
      unfold task_handler
      simp only [h, hs, task_handler_end_eq, set_state, set_task, List.tail_cons]
      exact ⟨_, rfl⟩
    obtain ⟨c, h1⟩ := h1
    exact ⟨_, _, h1, rfl, rfl, by simp [hs]⟩
  · have h1 : ∃ c, task_handler ext app = Outcome.returned
        ({ app with
            tasks := { (build_env ext.ENV_PREFIX t).1 with state := TASK_WATCHDOG } :: ts,
            connections := c }, true) := by
      unfold task_handler
      simp only [h, hs, task_handler_end_eq, set_state, set_task, List.tail_cons]
      exact ⟨_, rfl⟩
    obtain ⟨c, h1⟩ := h1
    exact ⟨_, _, h1, rfl, rfl, by simp [hs]⟩
  · have h1 : ∃ c, task_handler ext app = Outcome.returned
        ({ app with tasks := { t with state := TASK_RUN } :: ts, connections := c }, true) := by
      unfold task_handler
      simp only [h, hs, task_handler_end_eq, set_state]
      exact ⟨_, rfl⟩
    obtain ⟨c, h1⟩ := h1
    exact ⟨_, _, h1, rfl, rfl, by simp [hs]⟩
  · obtain ⟨t1, ctx, ok, hf⟩ := task_run_shape ext app t ts h (hp hs)
    have h1 : ∃ c, task_handler ext app = Outcome.returned
        ({ app with
            tasks := { t1 with state := if ok then TASK_RUNNING else TASK_FAIL } :: ts,
            main_context := ctx, connections := c }, true) := by
      unfold task_handler
      simp only [h, hs, hf, task_handler_end_eq, set_state]
      exact ⟨_, rfl⟩
    obtain ⟨c, h1⟩ := h1
    refine ⟨_, _, h1, rfl, rfl, ?_⟩
    cases ok <;> simp [hs, hf, Outcome.succeeded]

/-- The request that `task_status` queues. -/
theorem task_status_eq (app : AppData) (t : Task) (status : String) (reason : Option GError) :
    task_status app (some t) status reason
      = { app with soup_session := app.soup_session ++
            [{ method := "POST", base := t.task_uri, rel := "status",
               fields := match reason with
                 | none => [("status", status)]
                 | some r => [("status", status), ("message", r.message)] }] } := by
  cases reason <;> rfl

/-- Advancing the cursor when a successor exists. -/
theorem next_task_cons (app : AppData) (t n : Task) (rest : List Task) (s : TaskSetupState)
    (h : app.tasks = t :: n :: rest) :
    next_task app s
      = some ({ app with
                 tasks_prev := t :: app.tasks_prev
                 tasks := { n with state := s } :: rest }, true) := by
  simp [next_task, h]

/-- Advancing the cursor past the last task. -/
theorem next_task_last (app : AppData) (t : Task) (s : TaskSetupState)
    (h : app.tasks = [t]) :
    next_task app s
      = some ({ app with
                 tasks_prev := t :: app.tasks_prev
                 tasks := []
                 state := RecipeSetupState.RECIPE_COMPLETE
                 recipe_handler_id := app.main_context.next_id + 1
                 main_context :=
                  { next_id := app.main_context.next_id + 1,
                    sources := app.main_context.sources
                      ++ [⟨app.main_context.next_id + 1, SourceKind.idle_recipe_handler⟩] } },
              false) := by
  simp [next_task, h, g_source_attach]

/-- One invocation on a head task in FAIL. -/
theorem task_handler_fail_shape (ext : Ext) (app : AppData) (t : Task) (ts : List Task)
    (h : app.tasks = t :: ts) (hs : t.state = TASK_FAIL) :
    ∃ c, task_handler ext app = Outcome.returned
      ({ app with
          tasks := { t with state := TASK_COMPLETE } :: ts
          soup_session := app.soup_session ++
            (match t.error with
             | some e => [{ method := "POST", base := t.task_uri, rel := "status",
                            fields := [("status", "Aborted"), ("message", e.message)] }]
             | none => [])
          connections := c }, true) := by
  unfold task_handler
  simp only [h, hs]
  cases he : t.error with
  | none =>
    simp only [task_handler_end_eq, set_state, h, he, List.append_nil]
    exact ⟨_, rfl⟩
  | some e =>
    simp only [task_handler_end_eq, restraint_task_abort, task_status_eq, set_state, h, he]
    exact ⟨_, rfl⟩

/-- One invocation on a head task in CANCELLED or COMPLETE that has a
successor: the cursor moves on and the successor gets the state `s` that the
case hands to `next_task`. -/
theorem task_handler_advance_cons (ext : Ext) (app : AppData) (t n : Task)
    (rest : List Task) (h : app.tasks = t :: n :: rest)
    (hs : t.state = TASK_CANCELLED ∨ t.state = TASK_COMPLETE) :
    ∃ c, task_handler ext app = Outcome.returned
      ({ app with
          tasks_prev := t :: app.tasks_prev
          tasks := { n with
            state := if t.state = TASK_CANCELLED then TASK_CANCELLED else TASK_IDLE } :: rest
          soup_session := app.soup_session ++
            (if t.state = TASK_CANCELLED then
              [{ method := "POST", base := t.task_uri, rel := "status",
                 fields := [("status", "Cancelled")] }]
             else [])
          connections := c }, true) := by
  unfold task_handler
  rcases hs with hs | hs
  · simp only [h, hs, restraint_task_cancel, task_status_eq]
    rw [next_task_cons _ t n rest _ rfl]
    simp only [task_handler_end_eq, if_true]
    exact ⟨_, rfl⟩
  · have hne : ¬ (TASK_COMPLETE = TASK_CANCELLED) := by decide
    simp only [h, hs]
    rw [next_task_cons _ t n rest _ h]
    simp only [task_handler_end_eq, List.append_nil, if_neg hne]
    exact ⟨_, rfl⟩

/-- One invocation on a head task in CANCELLED or COMPLETE that is the last
of the list: the list becomes empty, the recipe is marked complete, the
recipe handler is attached and the handler returns "stop". -/
theorem task_handler_advance_last (ext : Ext) (app : AppData) (t : Task)
    (h : app.tasks = [t]) (hs : t.state = TASK_CANCELLED ∨ t.state = TASK_COMPLETE) :
    ∃ c, task_handler ext app = Outcome.returned
      ({ app with
          tasks_prev := t :: app.tasks_prev
          tasks := []
          state := RecipeSetupState.RECIPE_COMPLETE
          recipe_handler_id := app.main_context.next_id + 1
          main_context :=
            { next_id := app.main_context.next_id + 1,
              sources := app.main_context.sources
                ++ [⟨app.main_context.next_id + 1, SourceKind.idle_recipe_handler⟩] }
          soup_session := app.soup_session ++
            (if t.state = TASK_CANCELLED then
              [{ method := "POST", base := t.task_uri, rel := "status",
                 fields := [("status", "Cancelled")] }]
             else [])
          connections := c }, false) := by
  unfold task_handler
  rcases hs with hs | hs
  · simp only [h, hs, restraint_task_cancel, task_status_eq]
    rw [next_task_last _ t _ rfl]
    simp only [task_handler_end_eq, if_true]
    exact ⟨_, rfl⟩
  · have hne : ¬ (TASK_COMPLETE = TASK_CANCELLED) := by decide
    simp only [h, hs]
    rw [next_task_last _ t _ h]
    simp only [task_handler_end_eq, List.append_nil, if_neg hne]
    exact ⟨_, rfl⟩

/-- The sample running state is the one the handler produces from RUN. -/
theorem sample_running_app_reached (rest : List Task) :
    task_handler sample_ext (sample_app (sample_task TASK_RUN :: rest))
      = Outcome.returned (sample_running_app rest, true) := by
  rfl

/-- The local watchdog when the kill succeeds. -/
theorem task_timeout_callback_killed (ext : Ext) (app : AppData) (t : Task) (ts : List Task)
    (h : app.tasks = t :: ts) (hk : ext.kill = 0) :
    task_timeout_callback ext app
      = some ({ app with
                 tasks := { t with state := TASK_ABORTED, heartbeat_handler_id := 0 } :: ts
                 main_context :=
                  if t.heartbeat_handler_id ≠ 0
                  then g_source_remove app.main_context t.heartbeat_handler_id
                  else app.main_context }, false) := by
  unfold task_timeout_callback
  simp only [h, hk, if_true, set_task, List.tail_cons, Option.some_bind]

/-- The child-watch callback: it stores the status and, for a nonzero status,
offers one error to `g_set_error`. -/
theorem task_pid_callback_shape (pid status : Int) (app : AppData) (t : Task)
    (ts : List Task) (h : app.tasks = t :: ts) :
    task_pid_callback pid status app
      = some { app with
          tasks := { t with pid_result := status, error := exit_error t status } :: ts } := by
  unfold task_pid_callback exit_error
  simp only [h, set_task, List.tail_cons]
  by_cases h0 : status ≠ 0
  · by_cases h1 : t.state = TASK_ABORTED
    · simp only [if_pos h0, if_pos h1]
    · by_cases h2 : t.state = TASK_CANCELLED
      · simp only [if_pos h0, if_neg h1, if_pos h2]
      · simp only [if_pos h0, if_neg h1, if_neg h2]
  · simp only [if_neg h0]

/-- The finalize hook: both timers are cleared, the state is settled unless
the task is cancelled, and `task_handler` is attached again. -/
theorem task_pid_finish_shape (app : AppData) (t : Task) (ts : List Task)
    (h : app.tasks = t :: ts) :
    ∃ id ctx, task_pid_finish app
      = some { app with
          tasks := { t with
            heartbeat_handler_id := 0
            timeout_handler_id := 0
            state :=
              if t.state ≠ TASK_CANCELLED then
                if t.error.isSome then TASK_FAIL else TASK_COMPLETE
              else t.state } :: ts
          task_handler_id := id
          main_context := ctx } := by
  unfold task_pid_finish
  simp only [h, set_task, List.tail_cons]
  by_cases h1 : t.state ≠ TASK_CANCELLED
  · by_cases h2 : t.error.isSome = true
    · simp only [if_pos h1, if_pos h2]
      exact ⟨_, _, rfl⟩
    · simp only [if_pos h1, if_neg h2]
      exact ⟨_, _, rfl⟩
  · simp only [if_neg h1]
    exact ⟨_, _, rfl⟩

/-- Dispatch of the child watch on a state whose active task is known: the
status and the error are stored, both timers are cleared, the state is settled
unless the task is cancelled, and `task_handler` is attached again. -/
theorem child_watch_dispatch_shape (pid status : Int) (app : AppData) (t : Task)
    (ts : List Task) (h : app.tasks = t :: ts) :
    ∃ id ctx, child_watch_dispatch pid status app
      = some { app with
          tasks := { t with
            pid_result := status
            error := exit_error t status
            heartbeat_handler_id := 0
            timeout_handler_id := 0
            state :=
              if t.state ≠ TASK_CANCELLED then
                if (exit_error t status).isSome then TASK_FAIL else TASK_COMPLETE
              else t.state } :: ts
          task_handler_id := id
          main_context := ctx } := by
  unfold child_watch_dispatch
  rw [task_pid_callback_shape pid status app t ts h, Option.some_bind]
  exact task_pid_finish_shape
    { app with tasks := { t with pid_result := status, error := exit_error t status } :: ts }
    { t with pid_result := status, error := exit_error t status } ts rfl

/-- The local watchdog when the kill succeeds, seen through the fields of the
result. -/
theorem task_timeout_callback_killed_fields (ext : Ext) (app : AppData) (t : Task)
    (ts : List Task) (h : app.tasks = t :: ts) (hk : ext.kill = 0) :
    ∃ app1, task_timeout_callback ext app = some (app1, false)
      ∧ app1.tasks = { t with state := TASK_ABORTED, heartbeat_handler_id := 0 } :: ts
      ∧ app1.tasks_prev = app.tasks_prev ∧ app1.soup_session = app.soup_session
      ∧ app1.state = app.state :=
  ⟨_, task_timeout_callback_killed ext app t ts h hk, rfl, rfl, rfl, rfl⟩

/-- One invocation on a head task in RUN when the fork fails. -/
theorem task_handler_run_nofork (ext : Ext) (app : AppData) (t : Task) (ts : List Task)
    (h : app.tasks = t :: ts) (hs : t.state = TASK_RUN) (hf : ext.forkpty.1 < 0) :
    ∃ c, task_handler ext app = Outcome.returned
      ({ app with
          tasks := { t with
            pid := ext.forkpty.1
            error := g_set_error t.error GQuark.restraint_task_runner_error
              ErrorCode.RESTRAINT_TASK_RUNNER_FORK_ERROR "Failed to fork!"
            state := TASK_FAIL } :: ts
          connections := c }, true) := by
  unfold task_handler task_run
  simp only [h, hs, hf, if_true, set_task, List.tail_cons, set_state, task_handler_end_eq]
  exact ⟨_, rfl⟩

/-- The tail of the two "Killed" messages: `SIGKILL` prints as 9. -/
theorem killed_message (p : String) (x : Int) :
    p ++ fmt_i x ++ " with " ++ fmt_i SIGKILL = p ++ fmt_i x ++ " with 9" := by
  have h9 : fmt_i SIGKILL = "9" := by decide
  have hw : " with " ++ "9" = " with 9" := by decide
  rw [h9, String.append_assoc (p ++ fmt_i x), hw]

/-- C1 (as the code has it): `task_handler` has no case for FETCHING.  On a
head task in FETCHING one invocation returns "continue" and leaves the whole
application state, the task's state included, as it was; and a task in FETCH
whose fetcher returns success is put in FETCHING by the first invocation and
is still in FETCHING, with nothing changed, after the second. -/
theorem task_handler_fetching_stays (ext ext2 : Ext) (app : AppData) (t : Task)
    (ts : List Task) (h : app.tasks = t :: ts)
    (hs : t.state = TASK_FETCHING
      ∨ (t.state = TASK_FETCH ∧ (restraint_task_fetch ext app).map Prod.snd = some true)) :
    ∃ app1 t1, task_handler ext app = Outcome.returned (app1, true)
      ∧ app1.tasks = t1 :: ts ∧ app1.tasks_prev = app.tasks_prev
      ∧ t1.state = TASK_FETCHING
      ∧ (t.state = TASK_FETCHING → app1 = app)
      ∧ task_handler ext2 app1 = Outcome.returned (app1, true) := by
  rcases hs with hs | ⟨hs, hok⟩
  · have h1 : ∀ e : Ext, task_handler e app = Outcome.returned (app, true) := by
      intro e
      unfold task_handler
      simp only [h, hs]
    exact ⟨app, t, h1 ext, h, rfl, hs, fun _ => rfl, h1 ext2⟩
  · obtain ⟨t1, ok, hf⟩ := restraint_task_fetch_shape ext app t ts h
    rw [hf] at hok
    simp only [Option.map_some', Option.some.injEq] at hok
    subst hok
    have h1 : task_handler ext app
        = Outcome.returned
            ({ app with tasks := { t1 with state := TASK_FETCHING } :: ts }, true) := by
      unfold task_handler
      simp only [h, hs, hf, task_handler_end_eq, set_state]
      rfl
    refine ⟨_, _, h1, rfl, rfl, rfl, ?_, ?_⟩
    · intro hc
      rw [hs] at hc
      exact absurd hc (by decide)
    · unfold task_handler
      simp only []

/-- C2: on a head task in IDLE, FETCH, METADATA, ENV, DEPENDENCIES or RUN one
invocation of `task_handler` returns "continue", keeps the cursor where it is
and sets the head task's state to: FETCH from IDLE; FETCHING from FETCH when
the fetch dispatcher returns success, else FAIL; ENV from METADATA when the
metadata update succeeds, else FAIL; WATCHDOG from ENV; RUN from
DEPENDENCIES; RUNNING from RUN when the supervisor returns success, else FAIL.
(The invocation is the harness's own: in the forked child, where `forkpty`
answers 0, the handler comes back only when `chdir` fails.) -/
theorem task_handler_setup_step (ext : Ext) (app : AppData) (t : Task) (ts : List Task)
    (h : app.tasks = t :: ts)
    (hs : t.state = TASK_IDLE ∨ t.state = TASK_FETCH ∨ t.state = TASK_METADATA
      ∨ t.state = TASK_ENV ∨ t.state = TASK_DEPENDENCIES ∨ t.state = TASK_RUN)
    (hp : t.state = TASK_RUN → ext.forkpty.1 = 0 → ext.chdir = -1) :
    ∃ app1 t1, task_handler ext app = Outcome.returned (app1, true)
      ∧ app1.tasks = t1 :: ts ∧ app1.tasks_prev = app.tasks_prev
      ∧ t1.state =
          (match t.state with
           | TASK_IDLE => TASK_FETCH
           | TASK_FETCH =>
             if (restraint_task_fetch ext app).map Prod.snd = some true then TASK_FETCHING
             else TASK_FAIL
           | TASK_METADATA => if (ext.metadata_update t).1 then TASK_ENV else TASK_FAIL
           | TASK_ENV => TASK_WATCHDOG
           | TASK_DEPENDENCIES => TASK_RUN
           | TASK_RUN => if (task_run ext app).succeeded then TASK_RUNNING else TASK_FAIL
           | s => s) :=
  task_handler_setup_shape ext app t ts h hs hp

/-- C1, worked example: a head task in FETCH with a succeeding git fetcher is
in FETCHING after the first invocation and still there after the second; and
on a head task already in FETCHING one invocation changes nothing. -/
theorem task_handler_fetching_stays_witness :
    ((sample_app [sample_task TASK_FETCH]).tasks = [sample_task TASK_FETCH]
      ∧ (sample_task TASK_FETCH).state = TASK_FETCH
      ∧ (restraint_task_fetch sample_ext (sample_app [sample_task TASK_FETCH])).map Prod.snd
          = some true
      ∧ ∃ app1 t1, task_handler sample_ext (sample_app [sample_task TASK_FETCH])
            = Outcome.returned (app1, true)
          ∧ app1.tasks = [t1] ∧ t1.state = TASK_FETCHING
          ∧ task_handler sample_ext app1 = Outcome.returned (app1, true))
    ∧ ((sample_task TASK_FETCHING).state = TASK_FETCHING
      ∧ ∃ app1, task_handler sample_ext (sample_app [sample_task TASK_FETCHING])
            = Outcome.returned (app1, true)
          ∧ app1 = sample_app [sample_task TASK_FETCHING]) := by
  refine ⟨⟨rfl, rfl, by decide, ?_⟩, rfl, ?_⟩
  · obtain ⟨app1, t1, h1, h2, _, h4, _, h6⟩ :=
      task_handler_fetching_stays sample_ext sample_ext (sample_app [sample_task TASK_FETCH])
        (sample_task TASK_FETCH) [] rfl (Or.inr ⟨rfl, by decide⟩)
    exact ⟨app1, t1, h1, h2, h4, h6⟩
  · obtain ⟨app1, t1, h1, _, _, _, h5, _⟩ :=
      task_handler_fetching_stays sample_ext sample_ext
        (sample_app [sample_task TASK_FETCHING]) (sample_task TASK_FETCHING) [] rfl
        (Or.inl rfl)
    exact ⟨app1, h1, h5 rfl⟩

/-- C1 as stated fails: on a head task in FETCHING one invocation returns
"continue" with the application state untouched, so the task is still in
FETCHING, neither in METADATA nor in FAIL. -/
theorem task_handler_fetching_counterexample :
    task_handler sample_ext (sample_app [sample_task TASK_FETCHING])
        = Outcome.returned (sample_app [sample_task TASK_FETCHING], true)
    ∧ (sample_app [sample_task TASK_FETCHING]).tasks.map Task.state = [TASK_FETCHING] := by
  decide

/-- C2, worked example: a head task in RUN whose fork yields child 1234 is in
RUNNING after one invocation, the cursor unmoved. -/
theorem task_handler_setup_step_witness :
    (sample_app [sample_task TASK_RUN]).tasks = [sample_task TASK_RUN]
    ∧ (sample_task TASK_RUN).state = TASK_RUN
    ∧ ∃ app1 t1, task_handler sample_ext (sample_app [sample_task TASK_RUN])
          = Outcome.returned (app1, true)
        ∧ app1.tasks = [t1] ∧ app1.tasks_prev = [] ∧ t1.state = TASK_RUNNING := by
  refine ⟨rfl, rfl, ?_⟩
  obtain ⟨app1, t1, h1, h2, h3, h4⟩ :=
    task_handler_setup_step sample_ext (sample_app [sample_task TASK_RUN])
      (sample_task TASK_RUN) [] rfl (by decide) (by decide)
  exact ⟨app1, t1, h1, h2, h3, h4.trans (by decide)⟩

/-- C3 as stated fails: on the last task of the list, in COMPLETE, the handler
returns "stop" although the task is not in RUNNING. -/
theorem task_handler_stop_counterexample :
    (task_handler sample_ext (sample_app [sample_task TASK_COMPLETE])).result?.map Prod.snd
        = some false
    ∧ (sample_task TASK_COMPLETE).state ≠ TASK_RUNNING := by
  decide

/-- C3 (as the code has it): with a head task, `task_handler` returns "stop"
exactly when the head task is in RUNNING, or is in COMPLETE or CANCELLED and
is the last task of the list (then `next_task` hands over to the recipe
handler); in every other case it returns "continue".  (The invocation is the
harness's own: in the forked child the handler comes back only when `chdir`
fails.) -/
theorem task_handler_stop_iff (ext : Ext) (app : AppData) (t : Task) (ts : List Task)
    (h : app.tasks = t :: ts)
    (hp : t.state = TASK_RUN → ext.forkpty.1 = 0 → ext.chdir = -1) :
    ∃ app1 r, task_handler ext app = Outcome.returned (app1, r)
      ∧ (r = false ↔ (t.state = TASK_RUNNING
          ∨ ((t.state = TASK_COMPLETE ∨ t.state = TASK_CANCELLED) ∧ ts = []))) := by
  have setup : (t.state = TASK_IDLE ∨ t.state = TASK_FETCH ∨ t.state = TASK_METADATA
      ∨ t.state = TASK_ENV ∨ t.state = TASK_DEPENDENCIES ∨ t.state = TASK_RUN) →
      ∃ app1, task_handler ext app = Outcome.returned (app1, true) := by
    intro hs
    obtain ⟨a, _, h1, _⟩ := task_handler_setup_shape ext app t ts h hs hp
    exact ⟨a, h1⟩
  have adv : (t.state = TASK_CANCELLED ∨ t.state = TASK_COMPLETE) →
      ∃ app1, task_handler ext app = Outcome.returned (app1, !ts.isEmpty) := by
    intro hs
    cases ts with
    | nil =>
      obtain ⟨c, h1⟩ := task_handler_advance_last ext app t h hs
      exact ⟨_, h1⟩
    | cons n rest =>
      obtain ⟨c, h1⟩ := task_handler_advance_cons ext app t n rest h hs
      exact ⟨_, h1⟩
  cases hst : t.state
  case TASK_IDLE =>
    obtain ⟨a, h1⟩ := setup (by simp [hst])
    exact ⟨a, true, h1, by simp⟩
  case TASK_FETCH =>
    obtain ⟨a, h1⟩ := setup (by simp [hst])
    exact ⟨a, true, h1, by simp⟩
  case TASK_METADATA =>
    obtain ⟨a, h1⟩ := setup (by simp [hst])
    exact ⟨a, true, h1, by simp⟩
  case TASK_ENV =>
    obtain ⟨a, h1⟩ := setup (by simp [hst])
    exact ⟨a, true, h1, by simp⟩
  case TASK_DEPENDENCIES =>
    obtain ⟨a, h1⟩ := setup (by simp [hst])
    exact ⟨a, true, h1, by simp⟩
  case TASK_RUN =>
    obtain ⟨a, h1⟩ := setup (by simp [hst])
    exact ⟨a, true, h1, by simp⟩
  case TASK_FETCHING =>
    exact ⟨app, true, by unfold task_handler; simp only [h, hst], by simp⟩
  case TASK_ABORTED =>
    exact ⟨app, true, by unfold task_handler; simp only [h, hst], by simp⟩
  case TASK_RUNNING =>
    exact ⟨app, false, by unfold task_handler; simp only [h, hst], by simp⟩
  case TASK_WATCHDOG =>
    have h1 : ∃ app1, task_handler ext app = Outcome.returned (app1, true) := by
      unfold task_handler
      simp only [h, hst, task_handler_end_eq]
      exact ⟨_, rfl⟩
    obtain ⟨a, h1⟩ := h1
    exact ⟨a, true, h1, by simp⟩
  case TASK_FAIL =>
    obtain ⟨c, h1⟩ := task_handler_fail_shape ext app t ts h hst
    exact ⟨_, true, h1, by simp⟩
  case TASK_CANCELLED =>
    obtain ⟨a, h1⟩ := adv (by simp [hst])
    exact ⟨a, _, h1, by cases ts <;> simp⟩
  case TASK_COMPLETE =>
    obtain ⟨a, h1⟩ := adv (by simp [hst])
    exact ⟨a, _, h1, by cases ts <;> simp⟩

/-- C3, worked example: a lone head task in CANCELLED makes the handler return
"stop"; a head task in WATCHDOG makes it return "continue". -/
theorem task_handler_stop_iff_witness :
    (sample_app [sample_task TASK_CANCELLED]).tasks = [sample_task TASK_CANCELLED]
    ∧ ∃ app1 r, task_handler sample_ext (sample_app [sample_task TASK_CANCELLED])
          = Outcome.returned (app1, r)
        ∧ (r = false ↔ ((sample_task TASK_CANCELLED).state = TASK_RUNNING
          ∨ (((sample_task TASK_CANCELLED).state = TASK_COMPLETE
              ∨ (sample_task TASK_CANCELLED).state = TASK_CANCELLED)
            ∧ ([] : List Task) = []))) :=
  ⟨rfl, task_handler_stop_iff sample_ext (sample_app [sample_task TASK_CANCELLED])
    (sample_task TASK_CANCELLED) [] rfl (by decide)⟩

/-- C4: on a head task in FAIL one invocation of `task_handler` sets the
task's state to COMPLETE and changes nothing else of the task (the error is
kept), keeps the cursor and returns "continue"; it queues exactly one status
request, "Aborted" with the error's message, when `task.error` is present, and
queues none when it is absent. -/
theorem task_handler_fail_step (ext : Ext) (app : AppData) (t : Task) (ts : List Task)
    (h : app.tasks = t :: ts) (hs : t.state = TASK_FAIL) :
    ∃ app1 t1, task_handler ext app = Outcome.returned (app1, true)
      ∧ app1.tasks = t1 :: ts ∧ app1.tasks_prev = app.tasks_prev
      ∧ t1 = { t with state := TASK_COMPLETE }
      ∧ t1.state = TASK_COMPLETE ∧ t1.error = t.error
      ∧ app1.soup_session = app.soup_session ++
          (match t.error with
           | some e => [{ method := "POST", base := t.task_uri, rel := "status",
                          fields := [("status", "Aborted"), ("message", e.message)] }]
           | none => []) := by
  obtain ⟨c, h1⟩ := task_handler_fail_shape ext app t ts h hs
  exact ⟨_, _, h1, rfl, rfl, rfl, rfl, rfl, rfl⟩

/-- C4, worked example: a failed task carrying a fork error gets one "Aborted"
request with that message and moves to COMPLETE. -/
theorem task_handler_fail_step_witness :
    (sample_app [sample_failed_task]).tasks = [sample_failed_task]
    ∧ sample_failed_task.state = TASK_FAIL
    ∧ ∃ app1 t1, task_handler sample_ext (sample_app [sample_failed_task])
          = Outcome.returned (app1, true)
        ∧ app1.tasks = [t1] ∧ t1.state = TASK_COMPLETE
        ∧ app1.soup_session =
            [{ method := "POST", base := ⟨"http", "//lab/recipes/1/tasks/42/"⟩, rel := "status",
               fields := [("status", "Aborted"), ("message", "Failed to fork!")] }] := by
  refine ⟨rfl, rfl, ?_⟩
  obtain ⟨app1, t1, h1, h2, _, _, h5, _, h7⟩ :=
    task_handler_fail_step sample_ext (sample_app [sample_failed_task]) sample_failed_task []
      rfl rfl
  exact ⟨app1, t1, h1, h2, h5, h7⟩

/-- C5 as stated fails: after a cancelled head task the successor, here a task
that was waiting in IDLE, is not in IDLE but in CANCELLED. -/
theorem task_handler_cancelled_counterexample :
    (task_handler sample_ext
        (sample_app [sample_task TASK_CANCELLED, sample_task TASK_IDLE])).result?.map
          (fun r => (r.1.tasks.map Task.state, r.1.tasks_prev.map Task.state))
      = some ([TASK_CANCELLED], [TASK_CANCELLED]) := by
  decide

/-- C5 (as the code has it): on a head task in CANCELLED that has a successor,
one invocation of `task_handler` queues one "Cancelled" status request with no
reason (the `status` field alone), moves the cursor to the successor, returns
"continue", and the successor's state is CANCELLED afterwards: the
cancellation is handed on. -/
theorem task_handler_cancelled_step (ext : Ext) (app : AppData) (t n : Task)
    (rest : List Task) (h : app.tasks = t :: n :: rest) (hs : t.state = TASK_CANCELLED) :
    ∃ app1 n1, task_handler ext app = Outcome.returned (app1, true)
      ∧ app1.soup_session = app.soup_session ++
          [{ method := "POST", base := t.task_uri, rel := "status",
             fields := [("status", "Cancelled")] }]
      ∧ app1.tasks = n1 :: rest ∧ app1.tasks_prev = t :: app.tasks_prev
      ∧ n1 = { n with state := TASK_CANCELLED } ∧ n1.state = TASK_CANCELLED := by
  obtain ⟨c, h1⟩ := task_handler_advance_cons ext app t n rest h (Or.inl hs)
  simp only [hs, if_true] at h1
  exact ⟨_, _, h1, rfl, rfl, rfl, rfl, rfl⟩

/-- C5, worked example: a cancelled task followed by a task in IDLE. -/
theorem task_handler_cancelled_step_witness :
    (sample_app [sample_task TASK_CANCELLED, sample_task TASK_IDLE]).tasks
      = [sample_task TASK_CANCELLED, sample_task TASK_IDLE]
    ∧ (sample_task TASK_CANCELLED).state = TASK_CANCELLED
    ∧ ∃ app1 n1, task_handler sample_ext
          (sample_app [sample_task TASK_CANCELLED, sample_task TASK_IDLE])
          = Outcome.returned (app1, true)
        ∧ app1.soup_session =
            [{ method := "POST", base := ⟨"http", "//lab/recipes/1/tasks/42/"⟩, rel := "status",
               fields := [("status", "Cancelled")] }]
        ∧ app1.tasks = [n1] ∧ app1.tasks_prev = [sample_task TASK_CANCELLED]
        ∧ n1.state = TASK_CANCELLED := by
  refine ⟨rfl, rfl, ?_⟩
  obtain ⟨app1, n1, h1, h2, h3, h4, _, h6⟩ :=
    task_handler_cancelled_step sample_ext
      (sample_app [sample_task TASK_CANCELLED, sample_task TASK_IDLE])
      (sample_task TASK_CANCELLED) (sample_task TASK_IDLE) [] rfl rfl
  exact ⟨app1, n1, h1, h2, h3, h4, h6⟩

/-- C6: on a head task in COMPLETE one invocation of `task_handler` moves the
cursor on by exactly one task and queues no request.  With a successor: the
successor's state is set to IDLE, the recipe state and the event sources are
unchanged and the handler returns "continue".  Without one: the task list is
empty, the recipe state is RECIPE_COMPLETE, the recipe handler is attached to
the event loop as a new source whose (nonzero) id is stored in
`recipe_handler_id`, and the handler returns "stop". -/
theorem task_handler_complete_step (ext : Ext) (app : AppData) (t : Task) (ts : List Task)
    (h : app.tasks = t :: ts) (hs : t.state = TASK_COMPLETE) :
    ∃ app1 r, task_handler ext app = Outcome.returned (app1, r)
      ∧ app1.tasks_prev = t :: app.tasks_prev
      ∧ app1.soup_session = app.soup_session
      ∧ (match ts with
         | n :: rest =>
           app1.tasks = { n with state := TASK_IDLE } :: rest
           ∧ app1.state = app.state ∧ app1.main_context = app.main_context ∧ r = true
         | [] =>
           app1.tasks = [] ∧ app1.state = RecipeSetupState.RECIPE_COMPLETE
           ∧ app1.main_context.sources = app.main_context.sources
               ++ [⟨app1.recipe_handler_id, SourceKind.idle_recipe_handler⟩]
           ∧ app1.recipe_handler_id ≠ 0 ∧ r = false) := by
  have hne : ¬ (t.state = TASK_CANCELLED) := by rw [hs]; decide
  cases ts with
  | nil =>
    obtain ⟨c, h1⟩ := task_handler_advance_last ext app t h (Or.inr hs)
    simp only [hne, if_false, List.append_nil] at h1
    exact ⟨_, _, h1, rfl, rfl, rfl, rfl, rfl, Nat.succ_ne_zero _, rfl⟩
  | cons n rest =>
    obtain ⟨c, h1⟩ := task_handler_advance_cons ext app t n rest h (Or.inr hs)
    simp only [hne, if_false, List.append_nil] at h1
    exact ⟨_, _, h1, rfl, rfl, rfl, rfl, rfl, rfl⟩

/-- C6, worked example: a lone completed task ends the recipe; a completed
task with a successor wakes the successor in IDLE. -/
theorem task_handler_complete_step_witness :
    ((sample_app [sample_task TASK_COMPLETE]).tasks = [sample_task TASK_COMPLETE]
      ∧ (sample_task TASK_COMPLETE).state = TASK_COMPLETE
      ∧ ∃ app1 r, task_handler sample_ext (sample_app [sample_task TASK_COMPLETE])
            = Outcome.returned (app1, r)
          ∧ app1.tasks = [] ∧ app1.state = RecipeSetupState.RECIPE_COMPLETE ∧ r = false)
    ∧ ∃ app1 r, task_handler sample_ext
          (sample_app [sample_task TASK_COMPLETE, sample_task TASK_RUN])
          = Outcome.returned (app1, r)
        ∧ app1.tasks = [sample_task TASK_IDLE] ∧ r = true := by
  refine ⟨⟨rfl, rfl, ?_⟩, ?_⟩
  · obtain ⟨app1, r, h1, _, _, h4, h5, _, _, h8⟩ :=
      task_handler_complete_step sample_ext (sample_app [sample_task TASK_COMPLETE])
        (sample_task TASK_COMPLETE) [] rfl rfl
    exact ⟨app1, r, h1, h4, h5, h8⟩
  · obtain ⟨app1, r, h1, _, _, h4, _, _, h7⟩ :=
      task_handler_complete_step sample_ext
        (sample_app [sample_task TASK_COMPLETE, sample_task TASK_RUN])
        (sample_task TASK_COMPLETE) [sample_task TASK_RUN] rfl rfl
    exact ⟨app1, r, h1, h4, h7⟩

/-! ## The supervisor: watchdog, child exit, finalize -/

/-- C7, the code at the failing input: child 1234 is running, an external
caller sets the task's state to CANCELLED, the local watchdog fires and its
kill succeeds, the child watch delivers wait status 9 and the finalize hook
runs.  The task is then in FAIL, not in CANCELLED, with the error "Local
watchdog expired! Killed 1234 with 9", and the next `task_handler` invocation
queues an "Aborted" request carrying that message instead of a "Cancelled"
one. -/
theorem cancelled_then_expired_divergence :
    (set_state (sample_running_app []) TASK_CANCELLED).tasks.map Task.state = [TASK_CANCELLED]
    ∧ sample_cancelled_then_expired.map (fun a => a.tasks.map Task.state) = some [TASK_FAIL]
    ∧ sample_cancelled_then_expired.map (fun a => a.tasks.map Task.error)
        = some [some ⟨GQuark.restraint_task_runner_error,
            ErrorCode.RESTRAINT_TASK_RUNNER_WATCHDOG_ERROR,
            "Local watchdog expired! Killed 1234 with 9"⟩]
    ∧ (sample_cancelled_then_expired.bind
          (fun a => (task_handler sample_ext a).result?)).map (fun r => r.1.soup_session)
        = some [{ method := "POST", base := ⟨"http", "//lab/recipes/1/tasks/42/"⟩,
                  rel := "status",
                  fields := [("status", "Aborted"),
                    ("message", "Local watchdog expired! Killed 1234 with 9")] }] := by
  decide

/-- C8 as stated fails at wait status 0: the watchdog fires on the sample
running task, the kill succeeds, the child watch delivers status 0; after the
finalize hook the task is in COMPLETE with no error recorded. -/
theorem watchdog_expiry_counterexample :
    (sample_running_app []).tasks.map (fun t => (t.state, t.error)) = [(TASK_RUNNING, none)]
    ∧ sample_expired_exit_zero.map (fun a => a.tasks.map (fun t => (t.state, t.error)))
        = some [(TASK_COMPLETE, none)] := by
  decide

/-- C8 (as the code has it): for a head task in RUNNING with no error
recorded, if the timeout callback fires and the kill succeeds, then for every
nonzero wait status delivered afterwards to the child-exit callback, after the
finalize hook the task is in FAIL and `task.error` is a WATCHDOG_ERROR with
message "Local watchdog expired! Killed <pid> with 9" (pid = `task.pid`); the
next `task_handler` invocation then queues exactly one request, an "Aborted"
status report carrying that message, and returns "continue". -/
theorem watchdog_expiry_fails_task (ext : Ext) (app : AppData) (t : Task) (ts : List Task)
    (pid status : Int) (h : app.tasks = t :: ts) (_hs : t.state = TASK_RUNNING)
    (he : t.error = none) (hk : ext.kill = 0) (hst : status ≠ 0) :
    ∃ app1 app3 t3, task_timeout_callback ext app = some (app1, false)
      ∧ child_watch_dispatch pid status app1 = some app3
      ∧ app3.tasks = t3 :: ts ∧ app3.tasks_prev = app.tasks_prev
      ∧ t3.state = TASK_FAIL
      ∧ t3.error = some ⟨GQuark.restraint_task_runner_error,
          ErrorCode.RESTRAINT_TASK_RUNNER_WATCHDOG_ERROR,
          "Local watchdog expired! Killed " ++ fmt_i t.pid ++ " with 9"⟩
      ∧ ∀ ext2 : Ext, ∃ app4, task_handler ext2 app3 = Outcome.returned (app4, true)
          ∧ app4.soup_session = app.soup_session ++
              [{ method := "POST", base := t.task_uri, rel := "status",
                 fields := [("status", "Aborted"),
                   ("message", "Local watchdog expired! Killed " ++ fmt_i t.pid ++ " with 9")] }] := by
  obtain ⟨app1, h1, ht1, hp1, hs1, _⟩ := task_timeout_callback_killed_fields ext app t ts h hk
  obtain ⟨id, ctx, h3⟩ := child_watch_dispatch_shape pid status app1 _ ts ht1
  have herr : exit_error { t with state := TASK_ABORTED, heartbeat_handler_id := 0 } status
      = some ⟨GQuark.restraint_task_runner_error,
          ErrorCode.RESTRAINT_TASK_RUNNER_WATCHDOG_ERROR,
          "Local watchdog expired! Killed " ++ fmt_i t.pid ++ " with 9"⟩ := by
    simp only [exit_error, if_pos hst, if_true, he, g_set_error, killed_message]
  rw [herr] at h3
  simp only [Option.isSome_some, if_true, ne_eq] at h3
  rw [if_pos (by decide)] at h3
  refine ⟨app1, _, _, h1, h3, rfl, hp1, rfl, rfl, ?_⟩
  intro ext2
  obtain ⟨c, h4⟩ := task_handler_fail_shape ext2 _ _ ts
    (rfl : ({ app1 with
      tasks := ({ t with
        state := TASK_FAIL, heartbeat_handler_id := 0, timeout_handler_id := 0
        pid_result := status
        error := some ⟨GQuark.restraint_task_runner_error,
          ErrorCode.RESTRAINT_TASK_RUNNER_WATCHDOG_ERROR,
          "Local watchdog expired! Killed " ++ fmt_i t.pid ++ " with 9"⟩ } : Task) :: ts
      task_handler_id := id
      main_context := ctx } : AppData).tasks = _) rfl
  exact ⟨_, h4, by rw [← hs1]⟩

/-- C8, worked example: the watchdog kills child 1234 of the sample running
task and the child watch delivers wait status 9. -/
theorem watchdog_expiry_fails_task_witness :
    (sample_running_app []).tasks = [sample_running_task TASK_RUNNING]
    ∧ (sample_running_task TASK_RUNNING).state = TASK_RUNNING
    ∧ (sample_running_task TASK_RUNNING).error = none
    ∧ sample_ext.kill = 0 ∧ (9 : Int) ≠ 0
    ∧ ∃ app1 app3 t3, task_timeout_callback sample_ext (sample_running_app [])
          = some (app1, false)
        ∧ child_watch_dispatch 1234 9 app1 = some app3
        ∧ app3.tasks = [t3] ∧ t3.state = TASK_FAIL
        ∧ t3.error = some ⟨GQuark.restraint_task_runner_error,
            ErrorCode.RESTRAINT_TASK_RUNNER_WATCHDOG_ERROR,
            "Local watchdog expired! Killed 1234 with 9"⟩ := by
  refine ⟨rfl, rfl, rfl, rfl, by decide, ?_⟩
  obtain ⟨app1, app3, t3, h1, h2, h3, _, h5, h6, _⟩ :=
    watchdog_expiry_fails_task sample_ext (sample_running_app [])
      (sample_running_task TASK_RUNNING) [] 1234 9 rfl rfl rfl rfl (by decide)
  exact ⟨app1, app3, t3, h1, h2, h3, h5, h6.trans (by decide)⟩

/-- C10: on a head task in RUN with no error recorded and all four handles
zero, if the fork fails (`forkpty` answers a negative value, -1), one
`task_handler` invocation sets the state to FAIL, records `task.error` as
FORK_ERROR "Failed to fork!", leaves the four handles zero and attaches no
source; the second invocation queues one "Aborted" request with that message
and sets COMPLETE; the third moves the cursor to the next task (set to IDLE)
or, after the last task, empties the list; over the three invocations that
one request is the only one queued. -/
theorem fork_failure_run (ext1 ext2 ext3 : Ext) (app : AppData) (t : Task) (ts : List Task)
    (h : app.tasks = t :: ts) (hs : t.state = TASK_RUN) (he : t.error = none)
    (hz : t.pty_handler_id = 0 ∧ t.pid_handler_id = 0 ∧ t.timeout_handler_id = 0
      ∧ t.heartbeat_handler_id = 0)
    (hf : ext1.forkpty.1 = -1) :
    ∃ app1 t1 app2 t2 app3 r,
      task_handler ext1 app = Outcome.returned (app1, true)
      ∧ app1.tasks = t1 :: ts ∧ app1.tasks_prev = app.tasks_prev
      ∧ t1.state = TASK_FAIL
      ∧ t1.error = some ⟨GQuark.restraint_task_runner_error,
          ErrorCode.RESTRAINT_TASK_RUNNER_FORK_ERROR, "Failed to fork!"⟩
      ∧ (t1.pty_handler_id = 0 ∧ t1.pid_handler_id = 0 ∧ t1.timeout_handler_id = 0
          ∧ t1.heartbeat_handler_id = 0)
      ∧ app1.main_context = app.main_context ∧ app1.soup_session = app.soup_session
      ∧ task_handler ext2 app1 = Outcome.returned (app2, true)
      ∧ app2.tasks = t2 :: ts ∧ app2.tasks_prev = app.tasks_prev
      ∧ t2.state = TASK_COMPLETE
      ∧ app2.soup_session = app.soup_session ++
          [{ method := "POST", base := t.task_uri, rel := "status",
             fields := [("status", "Aborted"), ("message", "Failed to fork!")] }]
      ∧ task_handler ext3 app2 = Outcome.returned (app3, r)
      ∧ app3.tasks_prev = t2 :: app.tasks_prev
      ∧ app3.tasks = (match ts with
          | [] => []
          | n :: rest => { n with state := TASK_IDLE } :: rest)
      ∧ app3.soup_session = app2.soup_session := by
  have hneg : ext1.forkpty.1 < 0 := by rw [hf]; decide
  obtain ⟨c1, e1⟩ := task_handler_run_nofork ext1 app t ts h hs hneg
  simp only [he, g_set_error] at e1
  have k1 : ∃ app1, task_handler ext1 app = Outcome.returned (app1, true)
      ∧ app1.tasks = ({ t with
            pid := ext1.forkpty.1
            error := some ⟨GQuark.restraint_task_runner_error,
              ErrorCode.RESTRAINT_TASK_RUNNER_FORK_ERROR, "Failed to fork!"⟩
            state := TASK_FAIL } : Task) :: ts
      ∧ app1.tasks_prev = app.tasks_prev ∧ app1.main_context = app.main_context
      ∧ app1.soup_session = app.soup_session := ⟨_, e1, rfl, rfl, rfl, rfl⟩
  clear e1
  obtain ⟨app1, h1, ht1, hp1, hm1, hq1⟩ := k1
  obtain ⟨c2, e2⟩ := task_handler_fail_shape ext2 app1 _ ts ht1 rfl
  have k2 : ∃ app2, task_handler ext2 app1 = Outcome.returned (app2, true)
      ∧ app2.tasks = ({ t with
            pid := ext1.forkpty.1
            error := some ⟨GQuark.restraint_task_runner_error,
              ErrorCode.RESTRAINT_TASK_RUNNER_FORK_ERROR, "Failed to fork!"⟩
            state := TASK_COMPLETE } : Task) :: ts
      ∧ app2.tasks_prev = app.tasks_prev
      ∧ app2.soup_session = app.soup_session ++
          [{ method := "POST", base := t.task_uri, rel := "status",
             fields := [("status", "Aborted"), ("message", "Failed to fork!")] }] :=
    ⟨_, e2, rfl, hp1, by rw [← hq1]⟩
  clear e2
  obtain ⟨app2, h2, ht2, hp2, hq2⟩ := k2
  have hne : ¬ (TASK_COMPLETE = TASK_CANCELLED) := by decide
  cases ts with
  | nil =>
    obtain ⟨c3, h3⟩ := task_handler_advance_last ext3 app2 _ ht2 (Or.inr rfl)
    simp only [if_neg hne, List.append_nil] at h3
    exact ⟨app1, _, app2, _, _, _, h1, ht1, hp1, rfl, rfl, hz, hm1, hq1, h2, ht2, hp2, rfl, hq2,
      h3, by rw [← hp2], rfl, rfl⟩
  | cons n rest =>
    obtain ⟨c3, h3⟩ := task_handler_advance_cons ext3 app2 _ n rest ht2 (Or.inr rfl)
    simp only [if_neg hne, List.append_nil] at h3
    exact ⟨app1, _, app2, _, _, _, h1, ht1, hp1, rfl, rfl, hz, hm1, hq1, h2, ht2, hp2, rfl, hq2,
      h3, by rw [← hp2], rfl, rfl⟩

/-- C10, worked example: the fork fails for the first of two sample tasks. -/
theorem fork_failure_run_witness :
    (sample_app [sample_task TASK_RUN, sample_task TASK_FETCH]).tasks
      = [sample_task TASK_RUN, sample_task TASK_FETCH]
    ∧ (sample_task TASK_RUN).state = TASK_RUN ∧ (sample_task TASK_RUN).error = none
    ∧ sample_ext_nofork.forkpty.1 = -1
    ∧ ∃ app1 t1 app2 app3 r,
        task_handler sample_ext_nofork (sample_app [sample_task TASK_RUN, sample_task TASK_FETCH])
          = Outcome.returned (app1, true)
        ∧ app1.tasks = [t1, sample_task TASK_FETCH] ∧ t1.state = TASK_FAIL
        ∧ t1.error = some fork_error
        ∧ task_handler sample_ext app1 = Outcome.returned (app2, true)
        ∧ app2.soup_session =
            [{ method := "POST", base := ⟨"http", "//lab/recipes/1/tasks/42/"⟩, rel := "status",
               fields := [("status", "Aborted"), ("message", "Failed to fork!")] }]
        ∧ task_handler sample_ext app2 = Outcome.returned (app3, r)
        ∧ app3.tasks = [sample_task TASK_IDLE] := by
  refine ⟨rfl, rfl, rfl, rfl, ?_⟩
  obtain ⟨app1, t1, app2, t2, app3, r, h1, h2, _, h4, h5, _, _, _, h9, _, _, _, h13, h14, _,
      h16, _⟩ :=
    fork_failure_run sample_ext_nofork sample_ext sample_ext
      (sample_app [sample_task TASK_RUN, sample_task TASK_FETCH]) (sample_task TASK_RUN)
      [sample_task TASK_FETCH] rfl rfl rfl ⟨rfl, rfl, rfl, rfl⟩ rfl
  exact ⟨app1, t1, app2, app3, r, h1, h2, h4, h5, h9, h13, h14, h16⟩

/-! ## The external watchdog step -/

/-- C11, the code at the failing input: on the sample task in WATCHDOG one
invocation of `task_handler` queues no request at all (the session queue stays
empty, so no watchdog extension is sent), writes DEPENDENCIES and returns
"continue". -/
theorem watchdog_step_divergence :
    (sample_app [sample_task TASK_WATCHDOG]).soup_session = []
    ∧ (task_handler sample_ext (sample_app [sample_task TASK_WATCHDOG])).result?.map
        (fun r => (r.1.tasks.map Task.state, r.1.soup_session, r.2))
      = some ([TASK_DEPENDENCIES], [], true) := by
  decide

/-! ## The environment builder -/

/-- Folding `build_param_var` over a list appends one string per element. -/
theorem build_param_vars_eq (ps : List Param) (env : List String) :
    build_param_vars ps env = env ++ ps.map param_var := by
  unfold build_param_vars
  induction ps generalizing env with
  | nil => simp
  | cons p ps ih =>
    rw [List.foldl_cons, ih]
    simp [build_param_var, param_var]

/-- The task that `build_env` returns: only `env` is written, with the vector
the spec describes. -/
theorem build_env_eq (env_pfx : String) (task : Task) :
    build_env env_pfx task = ({ task with env := some (spec_env env_pfx task) }, true) := by
  unfold build_env spec_env spec_env_before_task_params spec_well_known spec_fixed
  cases hc : task.rhts_compat <;>
    simp [hc, build_param_vars_eq, List.append_assoc]

/-- C12: for every task (with its recipe) `build_env` succeeds and sets
`task.env`, and nothing else, to exactly this sequence of "NAME=value"
strings: one per recipe role in list order, one per task role, the 13
well-known variables JOBID, RECIPESETID, RECIPEID, TASKID, OSDISTRO, OSMAJOR,
OSVARIANT, OSARCH, TASKPATH, TASKNAME, MAXTIME (decimal `max_time`),
LAB_CONTROLLER (empty value), TASKORDER, each name preceded by the prefix
(empty when `rhts_compat` is true, the configured prefix otherwise), then
HOME=/root, TERM=vt100, LANG=en_US.UTF-8,
PATH=/usr/local/bin:usr/bin:/bin:/usr/local/sbin:/usr/sbin, then one per
recipe parameter, then one per task parameter; its length is
|recipe roles| + |task roles| + 17 + |recipe params| + |task params|. -/
theorem build_env_vector (env_pfx : String) (task : Task) :
    (build_env env_pfx task).2 = true
    ∧ (build_env env_pfx task).1 = { task with env := some (spec_env env_pfx task) }
    ∧ (build_env env_pfx task).1.env
        = some (task.recipe.roles.map (fun p => p.name ++ "=" ++ p.value)
            ++ task.roles.map (fun p => p.name ++ "=" ++ p.value)
            ++ spec_well_known (if task.rhts_compat then "" else env_pfx) task
            ++ [ "HOME=/root", "TERM=vt100", "LANG=en_US.UTF-8",
                 "PATH=/usr/local/bin:usr/bin:/bin:/usr/local/sbin:/usr/sbin" ]
            ++ task.recipe.params.map (fun p => p.name ++ "=" ++ p.value)
            ++ task.params.map (fun p => p.name ++ "=" ++ p.value))
    ∧ (spec_well_known (if task.rhts_compat then "" else env_pfx) task).length = 13
    ∧ (built_env env_pfx task).length
        = task.recipe.roles.length + task.roles.length + 17
          + task.recipe.params.length + task.params.length := by
  rw [built_env, build_env_eq]
  refine ⟨rfl, rfl, rfl, rfl, ?_⟩
  simp only [Option.getD_some, spec_env, spec_env_before_task_params, spec_well_known,
    spec_fixed, List.length_append, List.length_map, List.length_cons, List.length_nil]

/-! ## Task parameters come last -/

/-- C14 as stated fails: the sample task's env is built, the task parameter
HOME=/tmp/x is added, and `build_env` runs again: it is not rejected, and
`task.env` is no longer the vector built the first time (it now has 18
entries and ends with HOME=/tmp/x). -/
theorem build_env_twice_counterexample :
    ((build_env "RSTRNT_"
        { (build_env "RSTRNT_" (sample_task TASK_ENV)).1 with
          params := [⟨"HOME", "/tmp/x"⟩] }).1.env
      ≠ (build_env "RSTRNT_" (sample_task TASK_ENV)).1.env)
    ∧ ((build_env "RSTRNT_" (sample_task TASK_ENV)).1.env.map List.length = some 17)
    ∧ ((build_env "RSTRNT_"
        { (build_env "RSTRNT_" (sample_task TASK_ENV)).1 with
          params := [⟨"HOME", "/tmp/x"⟩] }).1.env.map
            (fun e => (e.length, e.getLast?)) = some (18, some "HOME=/tmp/x")) := by
  decide

/-- C14 (as the code has it): `build_env` has no guard for an env that is
already built.  Whatever `task.env` holds (`e`), running `build_env` succeeds
and overwrites it with the vector computed from the task's current roles,
parameters and other fields, the same vector a task with no env would get;
so running it again on an unedited task leaves `task.env` equal to the vector
built the first time, and after an edit `task.env` is the vector of the edited
task. -/
theorem build_env_overwrites (env_pfx : String) (task : Task) (e : Option (List String)) :
    (build_env env_pfx { task with env := e }).2 = true
    ∧ (build_env env_pfx { task with env := e }).1.env = some (spec_env env_pfx task)
    ∧ (build_env env_pfx { task with env := e }).1.env = (build_env env_pfx task).1.env
    ∧ build_env env_pfx (build_env env_pfx task).1 = build_env env_pfx task := by
  have h1 := build_env_eq env_pfx { task with env := e }
  have h2 := build_env_eq env_pfx task
  have h3 := build_env_eq env_pfx (build_env env_pfx task).1
  have hs : spec_env env_pfx { task with env := e } = spec_env env_pfx task := rfl
  have hs2 : spec_env env_pfx (build_env env_pfx task).1 = spec_env env_pfx task := by
    rw [h2]
    rfl
  refine ⟨by rw [h1], by rw [h1, hs], by rw [h1, h2, hs], ?_⟩
  rw [h3, hs2, h2]

/-! ## The status client -/

/-- C15: a status-client call that violates its contract is a no-op.  For
every task, `restraint_task_watchdog (task, 0)` leaves the application state,
its request queue included, as it was; so does `restraint_task_result` with a
NULL result; and so do `restraint_task_watchdog`, `restraint_task_result` and
`task_status` with a NULL task, whatever their other arguments. -/
theorem status_client_contract_noop (string_at bytes_of : Nat → String) (app : AppData)
    (task : Task) (seconds score : Nat) (result path message : Option String)
    (status : String) (reason : Option GError) :
    restraint_task_watchdog string_at app (some task) 0 = app
    ∧ (restraint_task_watchdog string_at app (some task) 0).soup_session = app.soup_session
    ∧ restraint_task_result bytes_of app (some task) none score path message = app
    ∧ restraint_task_watchdog string_at app none seconds = app
    ∧ restraint_task_result bytes_of app none result score path message = app
    ∧ task_status app none status reason = app :=
  ⟨rfl, rfl, rfl, rfl, rfl, rfl⟩

/-- C16: for every task and every non-NULL result, `restraint_task_result`
queues exactly one request, a POST to `results` under the task's URI, and
changes nothing else; the request has the field `result` with the given
value and, besides it, exactly those of `score`, `path`, `message` that are
supplied (`score` when nonzero, `path` and `message` when not NULL), each name
once; with only `result` set it carries exactly one field. -/
theorem restraint_task_result_fields (bytes_of : Nat → String) (app : AppData) (task : Task)
    (result : String) (score : Nat) (path message : Option String) :
    ∃ msg, restraint_task_result bytes_of app (some task) (some result) score path message
        = { app with soup_session := app.soup_session ++ [msg] }
      ∧ msg.method = "POST" ∧ msg.base = task.task_uri ∧ msg.rel = "results"
      ∧ ("result", result) ∈ msg.fields
      ∧ (∀ k, k ∈ msg.fields.map Prod.fst ↔
          (k = "result" ∨ (k = "score" ∧ score ≠ 0) ∨ (k = "path" ∧ path ≠ none)
            ∨ (k = "message" ∧ message ≠ none)))
      ∧ (msg.fields.map Prod.fst).Nodup
      ∧ msg.fields.length = 1 + (if score ≠ 0 then 1 else 0)
          + (if path ≠ none then 1 else 0) + (if message ≠ none then 1 else 0)
      ∧ restraint_task_result bytes_of app (some task) (some result) 0 none none
        = { app with soup_session := app.soup_session ++
              [{ method := "POST", base := task.task_uri, rel := "results",
                 fields := [("result", result)] }] } := by
  by_cases hs : score ≠ 0 <;> cases path <;> cases message <;>
    exact ⟨_, rfl, rfl, rfl, rfl, by simp [restraint_task_result, hs],
      by simp [hs], by simp [hs], by simp [hs], rfl⟩

/-! ## The child-watch callback and its finalize hook -/

/-- C17: for every head task with no error recorded and every wait status
`s`, the child-exit callback stores `s` in `pid_result` and changes nothing
else but `error` (neither the state nor any handle, nor anything outside the
task).  If `s = 0` no error is recorded; if `s ≠ 0` exactly one is:
WATCHDOG_ERROR "Local watchdog expired! Killed <pid> with 9" when the state is
ABORTED, WATCHDOG_ERROR "Cancelled by user! Killed <pid> with 9" when it is
CANCELLED, and RC_ERROR "<entry_point[0]> returned non-zero <s>" in every
other state (a missing `entry_point[0]` prints as "(null)"). -/
theorem task_pid_callback_records (pid s : Int) (app : AppData) (t : Task) (ts : List Task)
    (h : app.tasks = t :: ts) (he : t.error = none) :
    ∃ t1, task_pid_callback pid s app = some { app with tasks := t1 :: ts }
      ∧ t1.pid_result = s
      ∧ t1 = { t with pid_result := s, error := t1.error }
      ∧ t1.state = t.state
      ∧ (t1.pty_handler_id = t.pty_handler_id ∧ t1.pid_handler_id = t.pid_handler_id
          ∧ t1.timeout_handler_id = t.timeout_handler_id
          ∧ t1.heartbeat_handler_id = t.heartbeat_handler_id)
      ∧ t1.error =
          (if s = 0 then none
           else if t.state = TASK_ABORTED then
             some ⟨GQuark.restraint_task_runner_error,
               ErrorCode.RESTRAINT_TASK_RUNNER_WATCHDOG_ERROR,
               "Local watchdog expired! Killed " ++ fmt_i t.pid ++ " with 9"⟩
           else if t.state = TASK_CANCELLED then
             some ⟨GQuark.restraint_task_runner_error,
               ErrorCode.RESTRAINT_TASK_RUNNER_WATCHDOG_ERROR,
               "Cancelled by user! Killed " ++ fmt_i t.pid ++ " with 9"⟩
           else
             some ⟨GQuark.restraint_task_runner_error,
               ErrorCode.RESTRAINT_TASK_RUNNER_RC_ERROR,
               t.entry_point.headD "(null)" ++ " returned non-zero " ++ fmt_i s⟩) := by
  refine ⟨_, task_pid_callback_shape pid s app t ts h, rfl, rfl, rfl, ⟨rfl, rfl, rfl, rfl⟩, ?_⟩
  show exit_error t s = _
  unfold exit_error
  by_cases h0 : s = 0
  · simp [h0, he]
  · by_cases h1 : t.state = TASK_ABORTED
    · simp [h0, h1, he, g_set_error, killed_message]
    · by_cases h2 : t.state = TASK_CANCELLED
      · simp [h0, h2, he, g_set_error, killed_message]
      · simp [h0, h1, h2, he, g_set_error]

/-- C17, worked example: the sample running task exits with wait status 256
(exit code 1); the callback records RC_ERROR "make returned non-zero 256". -/
theorem task_pid_callback_records_witness :
    (sample_running_app []).tasks = [sample_running_task TASK_RUNNING]
    ∧ (sample_running_task TASK_RUNNING).error = none
    ∧ ∃ t1, task_pid_callback 1234 256 (sample_running_app [])
          = some { (sample_running_app []) with tasks := [t1] }
        ∧ t1.pid_result = 256 ∧ t1.state = TASK_RUNNING
        ∧ t1.error = some ⟨GQuark.restraint_task_runner_error,
            ErrorCode.RESTRAINT_TASK_RUNNER_RC_ERROR, "make returned non-zero 256"⟩ := by
  refine ⟨rfl, rfl, ?_⟩
  obtain ⟨t1, h1, h2, _, h4, _, h6⟩ :=
    task_pid_callback_records 1234 256 (sample_running_app [])
      (sample_running_task TASK_RUNNING) [] rfl rfl
  exact ⟨t1, h1, h2, h4, h6.trans (by decide)⟩

/-- C18: for every head task the post-exit finalize `task_pid_finish` leaves
`heartbeat_handler_id` and `timeout_handler_id` zero (whether or not they were
zero before), removing from the event loop the sources they named; it leaves
`error`, `pid_result`, every other field of the task and the cursor unchanged;
it attaches the `task_handler` idle callback exactly once, as one new source
whose (nonzero) id it stores in `task_handler_id`; and it sets the state as
follows: unchanged if it was CANCELLED, otherwise FAIL if `task.error` is
present and COMPLETE if it is absent. -/
theorem task_pid_finish_settles (app : AppData) (t : Task) (ts : List Task)
    (h : app.tasks = t :: ts) :
    ∃ app1 t1, task_pid_finish app = some app1
      ∧ app1.tasks = t1 :: ts ∧ app1.tasks_prev = app.tasks_prev
      ∧ t1.heartbeat_handler_id = 0 ∧ t1.timeout_handler_id = 0
      ∧ t1.error = t.error ∧ t1.pid_result = t.pid_result
      ∧ t1.state =
          (if t.state = TASK_CANCELLED then TASK_CANCELLED
           else if t.error.isSome then TASK_FAIL else TASK_COMPLETE)
      ∧ t1 = { t with heartbeat_handler_id := 0, timeout_handler_id := 0, state := t1.state }
      ∧ app1.main_context.sources
          = (app.main_context.sources.filter (fun src =>
              (t.heartbeat_handler_id == 0 || src.id != t.heartbeat_handler_id)
              && (t.timeout_handler_id == 0 || src.id != t.timeout_handler_id)))
            ++ [⟨app1.task_handler_id, SourceKind.idle_task_handler⟩]
      ∧ app1.task_handler_id ≠ 0
      ∧ app1 = { app with
          tasks := app1.tasks, task_handler_id := app1.task_handler_id,
          main_context := app1.main_context } := by
  have hsrc : (g_source_attach
        (if t.timeout_handler_id ≠ 0 then
          g_source_remove
            (if t.heartbeat_handler_id ≠ 0 then
              g_source_remove app.main_context t.heartbeat_handler_id
             else app.main_context) t.timeout_handler_id
         else
          (if t.heartbeat_handler_id ≠ 0 then
            g_source_remove app.main_context t.heartbeat_handler_id
           else app.main_context)) SourceKind.idle_task_handler).2.sources
      = (app.main_context.sources.filter (fun src =>
          (t.heartbeat_handler_id == 0 || src.id != t.heartbeat_handler_id)
          && (t.timeout_handler_id == 0 || src.id != t.timeout_handler_id)))
        ++ [⟨app.main_context.next_id + 1, SourceKind.idle_task_handler⟩] := by
    have hbeq : ∀ n : Nat, ¬ n = 0 → (n == 0) = false := fun n hn => by simpa using hn
    by_cases hb : t.heartbeat_handler_id = 0 <;> by_cases ho : t.timeout_handler_id = 0
    · simp [hb, ho, g_source_attach]
    · simp [hb, ho, hbeq _ ho, g_source_attach, g_source_remove]
    · simp [hb, ho, hbeq _ hb, g_source_attach, g_source_remove]
    · simp [hb, ho, hbeq _ hb, hbeq _ ho, g_source_attach, g_source_remove, List.filter_filter,
        Bool.and_comm]
  have hid : (g_source_attach
        (if t.timeout_handler_id ≠ 0 then
          g_source_remove
            (if t.heartbeat_handler_id ≠ 0 then
              g_source_remove app.main_context t.heartbeat_handler_id
             else app.main_context) t.timeout_handler_id
         else
          (if t.heartbeat_handler_id ≠ 0 then
            g_source_remove app.main_context t.heartbeat_handler_id
           else app.main_context)) SourceKind.idle_task_handler).1
      = app.main_context.next_id + 1 := by
    by_cases hb : t.heartbeat_handler_id = 0 <;> by_cases ho : t.timeout_handler_id = 0 <;>
      simp [hb, ho, g_source_attach, g_source_remove]
  have hrun : task_pid_finish app = some
      { app with
        tasks := { t with
          heartbeat_handler_id := 0, timeout_handler_id := 0
          state := (if t.state = TASK_CANCELLED then TASK_CANCELLED
                    else if t.error.isSome then TASK_FAIL else TASK_COMPLETE) } :: ts
        task_handler_id := app.main_context.next_id + 1
        main_context := (g_source_attach
          (if t.timeout_handler_id ≠ 0 then
            g_source_remove
              (if t.heartbeat_handler_id ≠ 0 then
                g_source_remove app.main_context t.heartbeat_handler_id
               else app.main_context) t.timeout_handler_id
           else
            (if t.heartbeat_handler_id ≠ 0 then
              g_source_remove app.main_context t.heartbeat_handler_id
             else app.main_context)) SourceKind.idle_task_handler).2 } := by
    unfold task_pid_finish
    simp only [h, set_task, List.tail_cons, hid]
    by_cases h1 : t.state = TASK_CANCELLED
    · have h1n : ¬ (t.state ≠ TASK_CANCELLED) := not_not.mpr h1
      simp only [if_neg h1n, if_pos h1]
      simp only [h1]
    · have h1p : t.state ≠ TASK_CANCELLED := h1
      by_cases h2 : t.error.isSome = true
      · simp only [if_pos h1p, if_neg h1, if_pos h2]
      · simp only [if_pos h1p, if_neg h1, if_neg h2]
  exact ⟨_, _, hrun, rfl, rfl, rfl, rfl, rfl, rfl, rfl, rfl, hsrc, Nat.succ_ne_zero _, rfl⟩

/-- C18, worked example: the sample running task, finalized after a clean
exit, ends in COMPLETE; sources 4 and 5 are gone and `task_handler` is back as
source 6. -/
theorem task_pid_finish_settles_witness :
    (sample_running_app []).tasks = [sample_running_task TASK_RUNNING]
    ∧ ∃ app1 t1, task_pid_finish (sample_running_app []) = some app1
        ∧ app1.tasks = [t1] ∧ t1.state = TASK_COMPLETE
        ∧ t1.heartbeat_handler_id = 0 ∧ t1.timeout_handler_id = 0
        ∧ app1.task_handler_id = 6
        ∧ app1.main_context.sources
            = [⟨1, SourceKind.idle_task_handler⟩, ⟨2, SourceKind.io_watch 5⟩,
               ⟨3, SourceKind.child_watch 1234⟩, ⟨6, SourceKind.idle_task_handler⟩] := by
  refine ⟨rfl, ?_⟩
  obtain ⟨app1, t1, h1, h2, _, h4, h5, _, _, h8, _, _, _, _⟩ :=
    task_pid_finish_settles (sample_running_app []) (sample_running_task TASK_RUNNING) [] rfl
  have e : task_pid_finish (sample_running_app []) = some
      { (sample_running_app []) with
        tasks := [{ sample_running_task TASK_COMPLETE with
          heartbeat_handler_id := 0, timeout_handler_id := 0 }]
        task_handler_id := 6
        main_context :=
          { next_id := 6,
            sources := [⟨1, SourceKind.idle_task_handler⟩, ⟨2, SourceKind.io_watch 5⟩,
              ⟨3, SourceKind.child_watch 1234⟩, ⟨6, SourceKind.idle_task_handler⟩] } } := by
    decide
  rw [e] at h1
  have e1 := (Option.some.inj h1).symm
  subst e1
  exact ⟨_, t1, e, h2, h8.trans (by decide), h4, h5, rfl, rfl⟩

/-! ## The local watchdog -/

/-- C19 as stated fails when the kill fails: on the sample running task
(RUNNING, no error, child watch attached as source 3) the callback removes the
child watch, whose destroy-notify `task_pid_finish` runs before the removal
returns.  The task leaves the callback in FAIL, not in RUNNING, with the
timeout handle cleared as well and `task_handler` attached again as source
6. -/
theorem task_timeout_callback_lost_counterexample :
    (sample_running_app []).tasks.map (fun t => (t.state, t.error)) = [(TASK_RUNNING, none)]
    ∧ sample_ext_nokill.kill ≠ 0
    ∧ (task_timeout_callback sample_ext_nokill (sample_running_app [])).map
        (fun r => r.1.tasks.map (fun t => (t.state, t.pid_handler_id,
          t.timeout_handler_id, t.heartbeat_handler_id)))
      = some [(TASK_FAIL, 0, 0, 0)]
    ∧ (task_timeout_callback sample_ext_nokill (sample_running_app [])).map
        (fun r => (r.2, r.1.task_handler_id))
      = some (false, 6)
    ∧ (task_timeout_callback sample_ext_nokill (sample_running_app [])).map
        (fun r => r.1.main_context.sources)
      = some [⟨1, SourceKind.idle_task_handler⟩, ⟨2, SourceKind.io_watch 5⟩,
           ⟨6, SourceKind.idle_task_handler⟩] := by
  decide

/-- C20, the code at the failing input: in the forked child (`forkpty` answers
0) with a failing `chdir`, `task_run` records CHDIR_ERROR and returns FALSE to
its caller; `task_handler` then writes FAIL and returns "continue", so the
child goes on running the state machine.  Only a failing `execvp` ends the
child with exit code 1. -/
theorem child_chdir_failure_divergence :
    sample_ext_child_nochdir.forkpty.1 = 0 ∧ sample_ext_child_nochdir.chdir = -1
    ∧ (task_run sample_ext_child_nochdir (sample_app [sample_task TASK_RUN])).result?.map
        (fun r => (r.1.tasks.map Task.error, r.2))
      = some ([some ⟨GQuark.restraint_task_runner_error,
          ErrorCode.RESTRAINT_TASK_RUNNER_CHDIR_ERROR, "Failed to chdir() to /mnt/tests/t"⟩],
          false)
    ∧ (task_handler sample_ext_child_nochdir (sample_app [sample_task TASK_RUN])).result?.map
        (fun r => (r.1.tasks.map Task.state, r.2))
      = some ([TASK_FAIL], true)
    ∧ task_run sample_ext_child_noexec (sample_app [sample_task TASK_RUN]) = Outcome.exited 1
    ∧ task_handler sample_ext_child_noexec (sample_app [sample_task TASK_RUN])
      = Outcome.exited 1 := by
  decide

/-! ## An Unpack URL of an unsupported scheme -/

/-- C21: for every head task whose fetch method is Unpack with a URL scheme
that is neither "git" nor "http", and with no error recorded,
`restraint_task_fetch` returns failure and leaves the application state as it
was (no error is recorded), whatever the fetchers would have answered: none of
them is consulted.  So on such a task in FETCH the first `task_handler`
invocation writes FAIL and changes nothing else, and the second writes
COMPLETE and changes nothing else: both return "continue", the request queue
gets no "Aborted" report and the observer stream gets no message, in
particular no "** ERROR" one. -/
theorem unsupported_scheme_fails_silently (ext1 ext2 : Ext) (app : AppData) (t : Task)
    (ts : List Task) (url : SoupURI) (h : app.tasks = t :: ts)
    (hf : t.fetch = TaskFetch.TASK_FETCH_UNPACK url) (hg : url.scheme ≠ "git")
    (hh : url.scheme ≠ "http") (he : t.error = none) :
    (∀ ext : Ext, restraint_task_fetch ext app = some (app, false))
    ∧ (t.state = TASK_FETCH →
        ∃ app1 app2, task_handler ext1 app = Outcome.returned (app1, true)
          ∧ app1 = { app with tasks := { t with state := TASK_FAIL } :: ts }
          ∧ task_handler ext2 app1 = Outcome.returned (app2, true)
          ∧ app2 = { app with tasks := { t with state := TASK_COMPLETE } :: ts }
          ∧ app2.soup_session = app.soup_session
          ∧ app2.connections = app.connections
          ∧ (app2.tasks.map Task.error = none :: ts.map Task.error)) := by
  have hfetch : ∀ ext : Ext, restraint_task_fetch ext app = some (app, false) := by
    intro ext
    unfold restraint_task_fetch
    simp [h, he, hf, hg, hh]
  refine ⟨hfetch, ?_⟩
  intro hs
  have hend : ∀ (a : AppData) (r : Bool), task_handler_end a "" r = Outcome.returned (a, r) := by
    intro a r
    rfl
  have h1 : task_handler ext1 app
      = Outcome.returned ({ app with tasks := { t with state := TASK_FAIL } :: ts }, true) := by
    unfold task_handler
    simp only [h, hs, hfetch ext1, hend, set_state]
    rfl
  have h2 : task_handler ext2 { app with tasks := { t with state := TASK_FAIL } :: ts }
      = Outcome.returned
          ({ app with tasks := { t with state := TASK_COMPLETE } :: ts }, true) := by
    unfold task_handler
    simp only [he, hend, set_state]
  exact ⟨_, _, h1, rfl, h2, rfl, rfl, rfl, by simp [he]⟩

/-- C21, worked example: the sample task with an `ftp` URL, under an
environment whose fetchers would all fail with an error of their own. -/
theorem unsupported_scheme_fails_silently_witness :
    (sample_app [sample_task_ftp]).tasks = [sample_task_ftp]
    ∧ sample_task_ftp.fetch = TaskFetch.TASK_FETCH_UNPACK ⟨"ftp", "//lab/t.tgz"⟩
    ∧ sample_task_ftp.error = none ∧ sample_task_ftp.state = TASK_FETCH
    ∧ restraint_task_fetch sample_ext_nofetch (sample_app [sample_task_ftp])
        = some (sample_app [sample_task_ftp], false)
    ∧ ∃ app1 app2, task_handler sample_ext_nofetch (sample_app [sample_task_ftp])
          = Outcome.returned (app1, true)
        ∧ app1.tasks.map Task.state = [TASK_FAIL]
        ∧ task_handler sample_ext_nofetch app1 = Outcome.returned (app2, true)
        ∧ app2.tasks.map Task.state = [TASK_COMPLETE]
        ∧ app2.soup_session = [] ∧ app2.connections = [] := by
  have hw := unsupported_scheme_fails_silently sample_ext_nofetch sample_ext_nofetch
    (sample_app [sample_task_ftp]) sample_task_ftp [] ⟨"ftp", "//lab/t.tgz"⟩ rfl rfl
    (by decide) (by decide) rfl
  refine ⟨rfl, rfl, rfl, rfl, hw.1 sample_ext_nofetch, ?_⟩
  obtain ⟨app1, app2, h1, e1, h2, e2, h5, h6, _⟩ := hw.2 rfl
  exact ⟨app1, app2, h1, by rw [e1]; rfl, h2, by rw [e2]; rfl, h5, h6⟩

/-! ## Cancellation cascades -/

/-- C22: for every task list whose head task is in CANCELLED with `n` tasks
after it, whatever their states, `n + 1` successive `task_handler` invocations
return "continue" `n` times and "stop" at the last; they queue exactly `n + 1`
requests, one "Cancelled" status report with no reason for each of the `n + 1`
tasks in list order; they end with an empty task list and the recipe state
RECIPE_COMPLETE.  Neither the fetcher nor the supervisor takes part: the
outcome is the same whatever the environment answers, the tasks left behind
the cursor are the original ones with nothing changed but the state of the
`n` successors, now CANCELLED, and the only source attached to the event loop
is the recipe handler. -/
theorem cancellation_cascades (exts : List Ext) (app : AppData) (t : Task) (ts : List Task)
    (h : app.tasks = t :: ts) (hs : t.state = TASK_CANCELLED)
    (hl : exts.length = ts.length + 1) :
    ∃ app1, task_handler_steps exts app
        = Outcome.returned (app1, List.replicate ts.length true ++ [false])
      ∧ app1.soup_session = app.soup_session ++ (t :: ts).map cancelled_report
      ∧ app1.tasks = [] ∧ app1.state = RecipeSetupState.RECIPE_COMPLETE
      ∧ app1.tasks_prev
          = (ts.map (fun u => { u with state := TASK_CANCELLED })).reverse
            ++ t :: app.tasks_prev
      ∧ app1.main_context.sources = app.main_context.sources
          ++ [⟨app1.recipe_handler_id, SourceKind.idle_recipe_handler⟩] := by
  induction ts generalizing exts app t with
  | nil =>
    cases exts with
    | nil => simp at hl
    | cons e exts1 =>
      cases exts1 with
      | cons e2 exts2 => simp at hl
      | nil =>
        obtain ⟨c, e1⟩ := task_handler_advance_last e app t h (Or.inl hs)
        simp only [hs, if_true] at e1
        have k1 : ∃ a, task_handler e app = Outcome.returned (a, false)
            ∧ a.soup_session = app.soup_session ++ [cancelled_report t]
            ∧ a.tasks = [] ∧ a.state = RecipeSetupState.RECIPE_COMPLETE
            ∧ a.tasks_prev = t :: app.tasks_prev
            ∧ a.main_context.sources = app.main_context.sources
                ++ [⟨a.recipe_handler_id, SourceKind.idle_recipe_handler⟩] :=
          ⟨_, e1, rfl, rfl, rfl, rfl, rfl⟩
        clear e1
        obtain ⟨a, h1, g2, g3, g4, g5, g6⟩ := k1
        refine ⟨a, ?_, g2, g3, g4, g5, g6⟩
        simp only [task_handler_steps, h1]
        rfl
  | cons n rest ih =>
    cases exts with
    | nil => simp at hl
    | cons e exts1 =>
      obtain ⟨c, e1⟩ := task_handler_advance_cons e app t n rest h (Or.inl hs)
      simp only [hs, if_true] at e1
      have k1 : ∃ a, task_handler e app = Outcome.returned (a, true)
          ∧ a.tasks = ({ n with state := TASK_CANCELLED } : Task) :: rest
          ∧ a.tasks_prev = t :: app.tasks_prev
          ∧ a.soup_session = app.soup_session ++ [cancelled_report t]
          ∧ a.main_context = app.main_context := ⟨_, e1, rfl, rfl, rfl, rfl⟩
      clear e1
      obtain ⟨a, h1, ht, hp, hq, hm⟩ := k1
      have hl2 : exts1.length = rest.length + 1 := by
        simpa using hl
      obtain ⟨app1, g1, g2, g3, g4, g5, g6⟩ := ih exts1 a _ ht rfl hl2
      refine ⟨app1, ?_, ?_, g3, g4, ?_, ?_⟩
      · simp only [task_handler_steps, h1, g1]
        rfl
      · rw [g2, hq]
        simp [cancelled_report]
      · rw [g5, hp]
        simp
      · rw [g6, hm]

/-- C22, worked example: a cancelled task followed by a task in RUN and a task
in IDLE; three invocations, three "Cancelled" reports, nothing fetched or
run. -/
theorem cancellation_cascades_witness :
    (sample_app [sample_task TASK_CANCELLED, sample_task TASK_RUN, sample_task TASK_IDLE]).tasks
      = [sample_task TASK_CANCELLED, sample_task TASK_RUN, sample_task TASK_IDLE]
    ∧ (sample_task TASK_CANCELLED).state = TASK_CANCELLED
    ∧ [sample_ext, sample_ext_nofork, sample_ext_nofetch].length = 2 + 1
    ∧ ∃ app1, task_handler_steps [sample_ext, sample_ext_nofork, sample_ext_nofetch]
          (sample_app [sample_task TASK_CANCELLED, sample_task TASK_RUN, sample_task TASK_IDLE])
          = Outcome.returned (app1, [true, true, false])
        ∧ app1.soup_session
            = [cancelled_report (sample_task TASK_CANCELLED),
               cancelled_report (sample_task TASK_RUN), cancelled_report (sample_task TASK_IDLE)]
        ∧ app1.tasks = [] ∧ app1.state = RecipeSetupState.RECIPE_COMPLETE
        ∧ app1.tasks_prev
            = [sample_task TASK_CANCELLED, sample_task TASK_CANCELLED,
               sample_task TASK_CANCELLED] := by
  refine ⟨rfl, rfl, rfl, ?_⟩
  obtain ⟨app1, h1, h2, h3, h4, h5, _⟩ :=
    cancellation_cascades [sample_ext, sample_ext_nofork, sample_ext_nofetch]
      (sample_app [sample_task TASK_CANCELLED, sample_task TASK_RUN, sample_task TASK_IDLE])
      (sample_task TASK_CANCELLED) [sample_task TASK_RUN, sample_task TASK_IDLE] rfl rfl rfl
  exact ⟨app1, h1, h2, h3, h4, h5⟩

end Restraint
